import Mathlib

/-!
Verification of the MAXY backend's intent-cascade and knowledge-synthesis
core (`backend/models.py`, `backend/slang_manager.py`).

Python strings are modelled as Lean `String`s, manipulated through their
underlying `List Char`; Python float scores are modelled as exact rationals
(the float operations that occur — division of small naturals, halving,
and the literals 0.1/0.25/0.4/0.5 — are exact at every value the claims
touch).  Substring containment (`pat in s`) is the list-infix relation on
the character lists.  Fallible external collaborators (Wikipedia search,
DuckDuckGo, weather, stock data, the slang word list) are passed in as
explicit parameters; an uncaught Python exception is modelled as
`Except.error`.
-/

/-- Python `str.lower()` (ASCII range, which is all the source's data uses). -/
def lowerL (l : List Char) : List Char := l.map Char.toLower

/-- Python `in` on strings: `pat in s` is infix containment of char lists. -/
def strIn (pat s : String) : Prop := pat.data <:+: s.data

instance (pat s : String) : Decidable (strIn pat s) := by
  unfold strIn; infer_instance

/-- Python's `\w` word character (ASCII scope of `re`'s default on this data). -/
def isWordChar (c : Char) : Bool := c.isAlpha || c.isDigit || c == '_'

/-- Maximal runs of word characters: the matches of `re.findall(r"\b\w+\b", ...)`. -/
def wordRunsAux : List Char → List Char → List (List Char)
  | [], acc => if acc = [] then [] else [acc.reverse]
  | c :: rest, acc =>
      if isWordChar c then wordRunsAux rest (c :: acc)
      else if acc = [] then wordRunsAux rest []
      else acc.reverse :: wordRunsAux rest []

/-- Tokenization of a string into maximal word-character runs. -/
def wordRuns (l : List Char) : List (List Char) := wordRunsAux l []

/-- The matches of `re.findall(r"\b[A-Z][a-z]+\b", query)`: exactly the
word runs consisting of one ASCII uppercase letter followed by one or more
ASCII lowercase letters. -/
def isCapName : List Char → Bool
  | [] => false
  | c :: rest => c.isUpper && !rest.isEmpty && rest.all (·.isLower)

/-- Title-case proper-name candidates extracted from the raw query
(`models.py` line 100). -/
def capNames (l : List Char) : List (List Char) := (wordRuns l).filter isCapName

/-- `KnowledgeSynthesizer.get_keywords` noise list (`models.py` line 82). -/
def noiseWords : List (List Char) :=
  ["is", "who", "the", "of", "what", "was", "were", "tell",
   "me", "about", "how", "does", "are"].map String.data

/-- `KnowledgeSynthesizer.get_keywords` (`models.py` lines 79-84):
word tokens of the lowercased query, minus noise words and tokens of
length ≤ 2. -/
def get_keywords (query : String) : List (List Char) :=
  (wordRuns (lowerL query.data)).filter
    (fun w => decide (w ∉ noiseWords) && decide (2 < w.length))

/-- Candidate content searched for keywords: `(title + " " + body).lower()`
(`models.py` line 93). -/
def contentOf (title body : String) : List Char :=
  lowerL (title.data ++ " ".data ++ body.data)

/-- Keyword match count (`models.py` line 94). -/
def kw_matches (query title body : String) : Nat :=
  (get_keywords query).countP (fun kw => decide (kw <:+: contentOf title body))

/-- Identity-indicator phrases (`models.py` line 97). -/
def identity_keywords : List String := ["who is", "who was", "identity", "person"]

/-- Low-quality-source indicators (`models.py` line 109). -/
def junk_indicators : List String :=
  ["reddit", "quora", "forum", "comment", "manhwa", "manga", "recommendation"]

/-- Entertainment-request markers that disable the junk penalty
(`models.py` line 111). -/
def entertainment_keys : List String := ["manga", "manhwa", "comic", "read"]

/-- The identity-guard condition of `score_relevance` (`models.py`
lines 96-104): an identity-indicator phrase occurs in the lowercased
query, at least one Title Case name was extracted from the raw query,
and none of those names occurs (lowercased) in the candidate content. -/
def identityGuardActive (query title body : String) : Prop :=
  (identity_keywords.any (fun ik => decide (ik.data <:+: lowerL query.data)) = true)
  ∧ capNames query.data ≠ []
  ∧ (capNames query.data).countP
      (fun nm => decide (lowerL nm <:+: contentOf title body)) = 0

instance (query title body : String) : Decidable (identityGuardActive query title body) := by
  unfold identityGuardActive; infer_instance

/-- The junk-source penalty condition of `score_relevance` (`models.py`
lines 108-113): the query does not mention an entertainment key, and the
lowercased body contains a low-quality-source indicator. -/
def junkPenalized (query body : String) : Prop :=
  (entertainment_keys.any (fun ek => decide (ek.data <:+: lowerL query.data)) = false)
  ∧ (junk_indicators.any (fun ji => decide (ji.data <:+: lowerL body.data)) = true)

instance (query body : String) : Decidable (junkPenalized query body) := by
  unfold junkPenalized; infer_instance

/-- The raw keyword-overlap score `matches / len(keywords)`
(`models.py` line 106). -/
def base_score (query title body : String) : ℚ :=
  (kw_matches query title body : ℚ) / ((get_keywords query).length : ℚ)

/-- `KnowledgeSynthesizer.score_relevance` (`models.py` lines 86-115). -/
def score_relevance (query title body : String) : ℚ :=
  if get_keywords query = [] then 1/2
  else if identityGuardActive query title body then 1/10
  else if junkPenalized query body then base_score query title body * (1/2)
  else base_score query title body

/-- One retrieved search result (`{title, body, url, source}` dict). -/
structure Candidate where
  title : String
  body : String
  url : String := ""
  source : String := ""
deriving DecidableEq, Repr

/-- A search result with its attached `relevance_score`. -/
structure Ranked where
  cand : Candidate
  relevance : ℚ
deriving DecidableEq, Repr

/-- Stable descending insertion used to model Python's stable
`sorted(..., key=relevance, reverse=True)`. -/
def insertDesc (c : Ranked) : List Ranked → List Ranked
  | [] => [c]
  | x :: xs => if x.relevance ≤ c.relevance then c :: x :: xs else x :: insertDesc c xs

/-- Stable descending sort by relevance score (`models.py` line 126). -/
def sortDesc : List Ranked → List Ranked
  | [] => []
  | c :: rest => insertDesc c (sortDesc rest)

/-- `KnowledgeSynthesizer.verify_facts` (`models.py` lines 117-126): attach
`score_relevance` to every result and sort descending by it. -/
def verify_facts (query : String) (results : List Candidate) : List Ranked :=
  sortDesc (results.map (fun r => ⟨r, score_relevance query r.title r.body⟩))

/-- `KnowledgeSynthesizer.get_best_match` (`models.py` lines 128-134). -/
def get_best_match (query : String) (results : List Candidate) (threshold : ℚ) :
    Option Ranked :=
  match verify_facts query results with
  | [] => none
  | c :: _ => if threshold ≤ c.relevance then some c else none

/-- The deep-research candidate selection (`models.py` lines 758-768):
take the first verified result with relevance strictly above 0.4 and a
body longer than 200 characters; if none qualifies, fall back to the
top-ranked result.  Returns `none` only when no candidates exist. -/
def deepSelect (query : String) (candidates : List Candidate) : Option Ranked :=
  let verified := verify_facts query candidates
  match verified.find?
      (fun r => decide ((2:ℚ)/5 < r.relevance) && decide (200 < r.cand.body.data.length)) with
  | some r => some r
  | none => verified.head?

/-- `MAXY1_1.quick_wikipedia_lookup` after retrieval (`models.py`
lines 300-313): the aggregated candidates (already truncated by the
retrieval loop) are passed in; selection uses `get_best_match` with the
fast-lookup threshold 0.25, and web-sourced matches are prefixed by
their title. -/
def quick_wikipedia_lookup (query : String) (candidates : List Candidate) : Option String :=
  if candidates = [] then none
  else
    match get_best_match query candidates (1/4) with
    | some best =>
        some (if best.cand.source = "web"
              then best.cand.title ++ ": " ++ best.cand.body
              else best.cand.body)
    | none => none

/-- Python `str.strip()` on a char list (ASCII whitespace, which is all
the source's data uses). -/
def pyStripL (l : List Char) : List Char :=
  ((l.dropWhile Char.isWhitespace).reverse.dropWhile Char.isWhitespace).reverse

/-- `message.lower().strip()`, the normalized text used by the intent
analyzers. -/
def msgLowerStripped (message : String) : List Char := pyStripL (lowerL message.data)

/-- Substring test of any phrase from a fixed trigger set, the
`any(ind in msg_lower for ind in indicators)` idiom. -/
def containsAnyOf (inds : List String) (msgLower : List Char) : Bool :=
  inds.any (fun ind => decide (ind.data <:+: msgLower))

/-- Surface-depth indicator phrases (`models.py` line 882 and 1425). -/
def surface_indicators : List String := ["what is", "who is", "simple", "basic", "quick"]

/-- Moderate-depth indicator phrases (`models.py` line 883 and 1426). -/
def moderate_indicators : List String := ["how does", "why does", "explain", "tell me about"]

/-- Deep-depth indicator phrases (`models.py` line 884 and 1427). -/
def deep_indicators : List String :=
  ["analyze", "comprehensive", "detailed", "in-depth", "research", "history of", "science of"]

/-- The ordered depth-indicator dictionary (`models.py` lines 881-885;
Python dicts preserve insertion order, so iteration visits surface,
moderate, deep in that order). -/
def depth_indicators : List (String × List String) :=
  [("surface", surface_indicators),
   ("moderate", moderate_indicators),
   ("deep", deep_indicators)]

/-- The depth-classification loop shared by
`MAXY1_2.analyze_conversation_context` (`models.py` lines 887-891) and
`MAXY1_3.analyze_user_intent` (lines 1430-1434): iterate over the
indicator sets in dictionary order, break on the first set with a phrase
contained in the normalized message, default to "surface". -/
def inquiry_depth (message : String) : String :=
  match depth_indicators.find? (fun p => containsAnyOf p.2 (msgLowerStripped message)) with
  | some p => p.1
  | none => "surface"

/-- Research-indicator phrases of `MAXY1_2.is_research_query`
(`models.py` lines 641-693). -/
def research_indicators : List String :=
  ["research", "tell me about", "what is", "who is", "explain",
   "info about", "information on", "details about", "who was",
   "what are", "define", "describe", "history of", "science",
   "technology", "biology", "physics", "chemistry", "geography",
   "country", "capital", "famous", "invented", "discovered",
   "when did", "where is", "why does", "the history of",
   "pm of", "president of", "governor of", "ceo of",
   "can you explain", "could you tell me", "i want to know",
   "learn about", "guide to", "overview of", "introduction to",
   "basics of", "advanced", "in depth", "detailed explanation",
   "summary of", "quick facts about", "key points of",
   "important facts", "meaning of", "definition of",
   "full form of", "origin of", "background of", "concept of",
   "when was", "when is", "how long does", "how long did",
   "how many years", "timeline of", "era of", "period of",
   "ancient", "modern", "medieval", "future of", "predicted",
   "forecast of", "trend in", "evolution of",
   "located in", "situated in", "map of", "population of",
   "area of", "largest", "smallest", "bordering",
   "neighboring countries", "climate of", "currency of",
   "language of",
   "founder of", "owner of", "chairman of", "minister of",
   "prime minister of", "king of", "queen of", "director of",
   "author of", "creator of", "biography of", "net worth of",
   "age of", "early life of",
   "theory of", "law of", "principle of", "formula for",
   "equation of", "difference between", "compare",
   "comparison between", "advantages of", "disadvantages of",
   "types of", "branches of", "process of", "cycle of",
   "structure of", "function of", "example of",
   "syntax of", "how to use", "usage of",
   "best practices for", "error in", "debug", "optimize",
   "performance of", "library for", "framework for", "api for",
   "database", "backend", "frontend", "full stack",
   "machine learning", "artificial intelligence", "cybersecurity",
   "cloud computing", "blockchain", "data science", "deep learning",
   "time complexity", "space complexity", "big o notation",
   "linear search", "binary search", "merge sort", "quick sort",
   "dynamic programming", "recursion", "greedy algorithm",
   "stack", "queue", "linked list", "binary tree", "bst",
   "heap", "hash table",
   "market value", "stock price of", "economy of", "gdp of",
   "inflation rate", "revenue of", "profit of",
   "business model of", "case study of", "impact of", "benefits of"]

/-- Conversation-indicator phrases of `MAXY1_2.is_research_query`
(`models.py` lines 695-700). -/
def conversation_indicators : List String :=
  ["how are you", "how do you feel", "what do you think",
   "your opinion", "chat", "talk", "conversation", "just saying",
   "i feel", "i think", "my day", "my life", "personal",
   "joke", "funny", "story"]

/-- Count of research indicators contained in the lowercased message
(`models.py` line 704). -/
def research_score (message : String) : Nat :=
  research_indicators.countP (fun ind => decide (ind.data <:+: lowerL message.data))

/-- Count of conversation indicators contained in the lowercased message
(`models.py` line 705). -/
def conversation_score (message : String) : Nat :=
  conversation_indicators.countP (fun ind => decide (ind.data <:+: lowerL message.data))

/-- `MAXY1_2.is_research_query` (`models.py` lines 638-712). -/
def is_research_query (message : String) : Bool :=
  if research_score message < conversation_score message then false
  else decide (0 < research_score message)

/-- Leftmost occurrence of a (nonempty) separator: returns the part
before the first occurrence and the part after it, or `none` when the
separator does not occur.  This drives the model of Python `str.split`. -/
def firstSplit (sep : List Char) : List Char → Option (List Char × List Char)
  | [] => none
  | c :: rest =>
      if sep.isPrefixOf (c :: rest) then some ([], (c :: rest).drop sep.length)
      else (firstSplit sep rest).map (fun p => (c :: p.1, p.2))

/-- Fuel-driven splitting loop (structural, so it reduces in the kernel). -/
def pySplitF : Nat → List Char → List Char → List (List Char)
  | 0, _, l => [l]
  | fuel + 1, sep, l =>
      match firstSplit sep l with
      | none => [l]
      | some (a, b) => a :: pySplitF fuel sep b

/-- Python `str.split(sep)` for a nonempty separator: split on leftmost
non-overlapping occurrences; a string with no occurrence yields itself as
the single piece (so the result is never empty). -/
def pySplit (sep l : List Char) : List (List Char) := pySplitF (l.length + 1) sep l

/-- Python `sep.join(pieces)`. -/
def pyJoin (sep : List Char) : List (List Char) → List Char
  | [] => []
  | [x] => x
  | x :: y :: ys => x ++ sep ++ pyJoin sep (y :: ys)

/-- Apply a function to the last element of a list only. -/
def adjustLast (f : List Char → List Char) : List (List Char) → List (List Char)
  | [] => []
  | [x] => [f x]
  | x :: y :: ys => x :: adjustLast f (y :: ys)

/-- The sentence separator `". "` used by the response finalizers. -/
def dotSpace : List Char := ['.', ' ']

/-- Sentence count of a response text: the number of pieces of the
`". "`-split whose strip is nonempty — exactly the sentences the
finalizer itself counts (`models.py` line 582). -/
def sentCount (l : List Char) : Nat :=
  ((pySplit dotSpace l).filter (fun p => !(pyStripL p).isEmpty)).length

/-- The MAXY 1.1 sentence cap (`models.py` lines 581-586): split on
`". "`, strip each piece, drop empty pieces; if more than 3 sentences
remain, keep the first 3 rejoined with `". "`, appending a final period
when missing. -/
def maxy11_cap (response : List Char) : List Char :=
  let sentences := ((pySplit dotSpace response).map pyStripL).filter (fun s => !s.isEmpty)
  if 3 < sentences.length then
    let joined := pyJoin dotSpace (sentences.take 3)
    if joined.getLast? = some '.' then joined else joined ++ ['.']
  else response

/-- Outcome of the random draws inside `SlangManager.enhance_text`
(`slang_manager.py` lines 327-347): prepend a slang word, append one, or
leave the text alone (which also covers the disabled, non-forced gate and
the gate in `MAXY1_1.process_message` line 589). -/
inductive EnhanceMode where
  | prepend
  | append
  | skip
deriving DecidableEq, Repr

/-- `SlangManager.enhance_text` (`slang_manager.py` lines 327-347) with
the random outcome and the chosen slang word (drawn from the runtime
slang file) as parameters: either `f"{slang}, {text}"`, or the text with
a trailing period stripped followed by `f", {slang}."`, or the text
unchanged. -/
def enhance_text (text : List Char) (mode : EnhanceMode) (slang : List Char) : List Char :=
  match mode with
  | .prepend => slang ++ [',', ' '] ++ text
  | .append =>
      (if text.getLast? = some '.' then text.dropLast else text) ++ [',', ' '] ++ slang ++ ['.']
  | .skip => text

/-- The fast tier finalization (`models.py` lines 580-590): cap at 3
sentences, then (depending on the slang gate and random draws) enhance. -/
def maxy11_finalize (response : List Char) (mode : EnhanceMode) (slang : List Char) :
    List Char :=
  enhance_text (maxy11_cap response) mode slang

/-- Python `str.upper()` (ASCII range). -/
def upperL (l : List Char) : List Char := l.map Char.toUpper

/-- Decimal digits of a natural number, fuel-driven so it reduces in the
kernel; models Python `str(int_value)` for nonnegative values. -/
def natToStrAux : Nat → Nat → List Char
  | 0, _ => []
  | fuel + 1, n =>
      if n < 10 then [Char.ofNat (48 + n)]
      else natToStrAux fuel (n / 10) ++ [Char.ofNat (48 + n % 10)]

/-- Python `str(n)` for a natural number. -/
def natToStr (n : Nat) : String := String.mk (natToStrAux (n + 1) n)

/-- `int(relevance_score * 100)` (`models.py` line 814): truncation toward
zero of a nonnegative score is its floor. -/
def confPct (relevance : ℚ) : Nat := (Int.floor (relevance * 100)).toNat

/-- Python `s.split(sep)` on strings. -/
def pySplitStr (s sep : String) : List String :=
  (pySplit sep.data s.data).map String.mk

/-- Python `sep.join(xs)` on strings. -/
def pyJoinStr (sep : String) (xs : List String) : String :=
  String.mk (pyJoin sep.data (xs.map String.data))

/-- Python list indexing `l[i]` with negative indices counted from the
end; out of range raises `IndexError`. -/
def pyIdx (l : List String) (i : Int) : Except String String :=
  let j : Int := if i < 0 then i + l.length else i
  if 0 ≤ j ∧ j < l.length then .ok (l.getD j.toNat "")
  else .error "IndexError: list index out of range"

/-- Build the list `[l[i] for i in idxs]`, evaluated left to right, the
first out-of-range index raising. -/
def collectIdx (l : List String) : List Int → Except String (List String)
  | [] => .ok []
  | i :: is =>
      match pyIdx l i with
      | .error e => .error e
      | .ok s =>
          match collectIdx l is with
          | .error e => .error e
          | .ok rest => .ok (s :: rest)

/-- `MAXY1_2.format_research_response` (`models.py` lines 1005-1021):
`deep` returns the report unchanged; otherwise the report is split on
blank lines and re-joined from the fixed index selection
`[0, 1, 2, -2, -1]` (surface) or `[0, 1, 2, 3, -2, -1]` (moderate); an
out-of-range index propagates Python's `IndexError`. -/
def format_research_response (raw depth : String) : Except String String :=
  if depth = "deep" then .ok raw
  else
    let sections := pySplitStr raw "\n\n"
    let idxs : List Int := if depth = "surface" then [0, 1, 2, -2, -1] else [0, 1, 2, 3, -2, -1]
    match collectIdx sections idxs with
    | .ok selected => .ok (pyJoinStr "\n\n" selected)
    | .error e => .error e

/-- Outcome record of the research helpers: the
`{success, response, confidence, sources}` dict. -/
structure ResearchResult where
  success : Bool
  response : String
  confidence : ℚ
  sources : List String := []
deriving DecidableEq, Repr

/-- The professional synthesis of `deep_wikipedia_research` (`models.py`
lines 774-814), building the sectioned report from the selected
candidate; `pct` is `int(relevance_score * 100)` computed by the caller. -/
def buildReport (title summary url source : String) (pct : Nat) : String :=
  let paragraphs :=
    ((pySplit "\n\n".data summary.data).map pyStripL).filter (fun p => 100 < p.length)
  let paragraphs := if paragraphs = [] then [summary.data] else paragraphs
  let intro := paragraphs.headD []
  let intro := if 600 < intro.length then intro.take 600 ++ "...".data else intro
  let all_sentences :=
    ((pySplit dotSpace summary.data).map pyStripL).filter (fun s => 20 < s.length)
  let insights := (all_sentences.drop 2).take 5
  let narrative :=
    if 1 < paragraphs.length then pyJoin " ".data ((paragraphs.drop 1).take 2)
    else (summary.data.drop 600).take 1400
  let narrative := if 1200 < narrative.length then narrative.take 1200 ++ "...".data else narrative
  let conclusion :=
    "The data regarding ".data ++ title.data ++
    " suggests a consistent thematic pattern across primary and secondary sources. Further analysis of its foundational principles provides deeper context into its current relevance.".data
  String.mk
    ("**VERIFIED RESEARCH REPORT: ".data ++ upperL title.data ++ "**\n".data
      ++ List.replicate 60 '=' ++ "\n\n".data
      ++ (if source = "web" then
            "⚠️ **REAL-TIME SYNTHESIS:** This report incorporates current web data verified for relevance.\n\n".data
          else [])
      ++ "### I. SCHOLARLY OVERVIEW\n".data ++ intro ++ "\n\n".data
      ++ "### II. CRITICAL INSIGHTS & THEMATIC ANALYSIS\n".data
      ++ (insights.take 4).foldr (fun ins acc => "• ".data ++ ins ++ ".\n".data ++ acc) []
      ++ "\n".data
      ++ "### III. DETAILED TECHNICAL NARRATIVE\n".data ++ narrative ++ "\n\n".data
      ++ "### IV. ACADEMIC CONCLUSION\n".data ++ conclusion ++ "\n\n".data
      ++ "**REFERENCE INDICES**\n📚 Primary Dataset: ".data ++ url.data
      ++ "\n🔍 Synthesis Confidence: ".data ++ (natToStr pct).data ++ "%".data)

/-- `MAXY1_2.deep_wikipedia_research` after retrieval (`models.py` lines
715-829): the two source loops contribute `wikiCands` and `webCands` (a
failed source contributes the empty list); no candidates yields the fixed
no-data result at confidence 0.40, otherwise the `deepSelect` candidate is
synthesized into a report at its relevance score.  (`deepSelect` returns
`some` whenever candidates exist; the `none` arm is unreachable.) -/
def deep_wikipedia_research (query : String) (wikiCands webCands : List Candidate) :
    ResearchResult :=
  let candidates := wikiCands ++ webCands
  if candidates = [] then
    ⟨false, "Our core knowledge indices returned no high-confidence data for this inquiry.", 2/5, []⟩
  else
    match deepSelect query candidates with
    | none => ⟨false, "", 0, []⟩
    | some best =>
        ⟨true,
         buildReport best.cand.title best.cand.body best.cand.url best.cand.source
           (confPct best.relevance),
         best.relevance, [best.cand.url]⟩

/-- The numbered entry list of `perform_web_search`
(`models.py` lines 855-859). -/
def webEntries : Nat → List Candidate → List Char
  | _, [] => []
  | i, r :: rest =>
      "**".data ++ (natToStr i).data ++ ". ".data ++ r.title.data ++ "**\n".data
        ++ r.body.data ++ "\n🔗 ".data ++ r.url.data ++ "\n\n".data
        ++ webEntries (i + 1) rest

/-- `MAXY1_2.perform_web_search` (`models.py` lines 845-873): the DDG call
either raises (modelled as `.error e`), returns no results, or returns a
numbered report at confidence 0.90. -/
def perform_web_search (query : String) (results : Except String (List Candidate)) :
    ResearchResult :=
  match results with
  | .error e => ⟨false, "Web search failed: " ++ e, 1/2, []⟩
  | .ok [] => ⟨false, "No web results found.", 1/2, []⟩
  | .ok rs =>
      ⟨true,
       String.mk ("**WEB SEARCH REPORT: ".data ++ upperL query.data ++ "**\n\n".data
         ++ webEntries 1 rs
         ++ "**Synthesis:**\nThe web search results indicate a variety of perspectives. This data complements traditional knowledge bases.".data),
       9/10, rs.map (·.url)⟩

/-- The research branch of `MAXY1_2.process_message` (`models.py` lines
1052-1066): deep research, fallback to web search when it failed or the
topic was missing, then depth formatting of the raw response.  The result
is the `(response, confidence)` pair; an uncaught Python exception is the
`.error` case. -/
def maxy12_process_research (message : String) (wikiCands webCands : List Candidate)
    (webSearch : Except String (List Candidate)) : Except String (String × ℚ) :=
  let result := deep_wikipedia_research message wikiCands webCands
  let result :=
    if result.success = false ∨ strIn "does not reside" result.response then
      let webResult := perform_web_search message webSearch
      if webResult.success then webResult else result
    else result
  match format_research_response result.response (inquiry_depth message) with
  | .ok response => .ok (response, result.confidence)
  | .error e => .error e

/-- `MAXY1_1.should_use_wikipedia` keyword list (`models.py` lines 206-261). -/
def wiki_keywords_11 : List String :=
  [
   "what is", "who is", "how does", "explain",
   "tell me about", "info about", "information on", "details about",
   "who was", "what are", "define", "describe",
   "history of", "science", "technology", "biology",
   "physics", "chemistry", "geography", "country",
   "capital", "famous", "invented", "discovered",
   "when did", "where is", "why does", "sort",
   "search", "array", "list", "tree",
   "graph", "data structure", "algorithm", "implement",
   "code", "function", "class", "decorator",
   "python", "javascript", "java", "html",
   "css", "sql", "pm of", "president of",
   "governor of", "ceo of", "can you explain", "could you tell me",
   "i want to know", "learn about", "guide to", "overview of",
   "introduction to", "basics of", "advanced", "in depth",
   "detailed explanation", "summary of", "quick facts about", "key points of",
   "important facts", "meaning of", "definition of", "full form of",
   "origin of", "background of", "concept of", "when was",
   "when is", "how long does", "how long did", "how many years",
   "timeline of", "era of", "period of", "ancient",
   "modern", "medieval", "future of", "predicted",
   "forecast of", "trend in", "evolution of", "located in",
   "situated in", "map of", "population of", "area of",
   "largest", "smallest", "bordering", "neighboring countries",
   "climate of", "currency of", "language of", "founder of",
   "owner of", "chairman of", "minister of", "prime minister of",
   "king of", "queen of", "director of", "author of",
   "creator of", "biography of", "net worth of", "age of",
   "early life of", "theory of", "law of", "principle of",
   "formula for", "equation of", "difference between", "compare",
   "comparison between", "advantages of", "disadvantages of", "types of",
   "branches of", "process of", "cycle of", "structure of",
   "function of", "example of", "syntax of", "how to use",
   "usage of", "best practices for", "error in", "debug",
   "optimize", "performance of", "library for", "framework for",
   "api for", "database", "backend", "frontend",
   "full stack", "machine learning", "artificial intelligence", "cybersecurity",
   "cloud computing", "blockchain", "data science", "deep learning",
   "time complexity", "space complexity", "big o notation", "linear search",
   "binary search", "merge sort", "quick sort", "dynamic programming",
   "recursion", "greedy algorithm", "stack", "queue",
   "linked list", "binary tree", "bst", "heap",
   "hash table", "market value", "stock price of", "economy of",
   "gdp of", "inflation rate", "revenue of", "profit of",
   "business model of", "case study of", "impact of", "benefits of"]

/-- Code-request indicator words of `MAXY1_3.is_code_request` (`models.py` lines 1140-1158), matched with word boundaries. -/
def code_indicators : List String :=
  [
   "code", "write", "create", "generate",
   "function", "how to", "program", "script",
   "example", "syntax", "algorithm", "implement",
   "snippet", "coding", "develop", "setup",
   "server", "logic", "sort", "search",
   "array", "list", "tree", "graph",
   "data structure", "decorator", "class", "method",
   "variable", "loop", "conditional", "syntax of",
   "how to use", "usage of", "best practices for", "error in",
   "debug", "optimize", "performance of", "library for",
   "framework for", "api for", "database", "backend",
   "frontend", "full stack", "machine learning", "artificial intelligence",
   "cybersecurity", "cloud computing", "blockchain", "data science",
   "deep learning", "time complexity", "space complexity", "big o notation",
   "linear search", "binary search", "merge sort", "quick sort",
   "dynamic programming", "recursion", "greedy algorithm", "stack",
   "queue", "linked list", "binary tree", "bst",
   "heap", "hash table"]

/-- Technical concepts of `MAXY1_3.is_code_request` (`models.py` lines 1170-1174), matched as plain substrings. -/
def technical_concepts : List String :=
  [
   "bubble sort", "binary search", "linked list", "quick sort",
   "merge sort", "dfs", "bfs", "dijkstra",
   "dynamic programming", "hash map", "stack trace", "rest api",
   "webhook", "database schema", "unit test", "regex",
   "regular expression"]

/-- Chart-request indicators of `MAXY1_3.is_chart_request` (`models.py` line 1231). -/
def chart_indicators : List String :=
  [
   "chart", "graph", "pie chart", "bar chart",
   "line chart", "visualization", "plot", "create a chart",
   "make a chart", "histogram"]

/-- Slang trigger words of `SlangManager.detect_slang` (`slang_manager.py` lines 62-97), matched with word boundaries. -/
def slang_triggers : List String :=
  [
   "macha", "machaa", "maga", "magane",
   "guru", "boss", "bossu", "thika",
   "sisya", "da", "kane", "kano",
   "le", "lo", "aliyas", "dove",
   "mama", "machan", "mass", "scene",
   "sakath", "tumba", "swalpa", "adjust",
   "beda", "beku", "super", "ayyo",
   "chindi", "bindaas", "figure", "loose",
   "item", "jugaad", "ghanta", "pakao",
   "mast", "kaand", "faltu", "timepass",
   "jhol", "funda", "bakwaas", "senti",
   "patli", "jhakas", "bro", "broski",
   "dude", "buddy", "maadi", "kelsa",
   "hogona", "banni", "yen", "helu",
   "samachara", "yelli", "hogu", "dei",
   "barre", "chal", "oye", "ri",
   "ba", "seri", "howdu", "howdu howdu",
   "yesu", "sceneu", "next", "previous",
   "start", "stop", "go", "come",
   "wait", "hold", "leave", "take",
   "give", "show", "check", "look",
   "talk", "tell", "ask", "reply",
   "text", "call", "ping", "msg",
   "status", "update", "fix", "error",
   "bug", "issue", "problem", "solution",
   "idea", "plan", "project", "task",
   "work", "job", "money", "food",
   "tea", "coffee", "lunch", "dinner",
   "party", "trip", "movie", "game",
   "bored", "sleep", "wake", "study",
   "exam", "result", "rank", "fail",
   "pass", "win", "lose", "fight",
   "love", "crush", "breakup", "marriage",
   "family", "friend", "group", "gang",
   "area", "local", "global", "kya",
   "haal", "bhai", "yaar", "dost",
   "kaise", "bol", "mast", "jhakaas",
   "bindaas", "paisa", "waat", "kalti",
   "khopdi", "bheja", "dhassu", "achaeppadi",
   "irukkenga", "nanba", "vanakkam", "yenna",
   "saappaadu", "thalaiva", "ela", "unnavu",
   "thammudu", "anna", "namaskaram", "enti",
   "sangathi"]

/-- The localized greeting map of `SlangManager.handle_conversational_slang` (`slang_manager.py` lines 102-305), in insertion order. -/
def greetings_map : List (String × String) :=
  [
   ("yen guru",
    "Helu guru, yen samachara? What can I help you with today? 😉"),
   ("yen samachara",
    "Yellu super guru! Tell me what\x27s on your mind today."),
   ("maga helu",
    "Helu maga! Ready and set, what do you need?"),
   ("yen maga",
    "Yenu illa maga! Fast responses ready for you. Tell me!"),
   ("kya haal hai",
    "Ekdum mast bhai! Aap batao, how can I help you today? 🔥"),
   ("kaise ho",
    "Badiya dost! Ready to assist you. What\x27s the plan?"),
   ("bol bhai",
    "Ji bhai, tell me what you need! I\x27m here for you."),
   ("eppadi irukkenga",
    "Nalla irukkenga nanba! How about you? What can MAXY do for you?"),
   ("yenna saappaadu",
    "Innum saapala nanba! AI logic doesn\x27t need food, only your queries! 😂"),
   ("ela unnavu",
    "Chala bagunnanu anna! How can I help you today?"),
   ("enti sangathi",
    "Antha manchide! Ready to chat, tell me what you need."),
   ("macha",
    "En macha, what\x27s the scene?"),
   ("machaa",
    "Macha machaa! Tell me properly."),
   ("machan",
    "Machan, sollu da!"),
   ("maga",
    "Helu maga, yen samachara?"),
   ("magane",
    "Magane! What happened?"),
   ("guru",
    "Guru, what\x27s cooking?"),
   ("boss",
    "Yes boss, tell me."),
   ("bossu",
    "Bossu! What service?"),
   ("bro",
    "Brooo, what plan?"),
   ("broski",
    "Broski! What’s up?"),
   ("da",
    "En da, heli!"),
   ("dei",
    "Dei, calm and tell."),
   ("yaar",
    "Bol yaar, kya hua?"),
   ("dost",
    "Haan dost, scene kya?"),
   ("bhai",
    "Bhai, batao."),
   ("anna",
    "Heli anna."),
   ("akka",
    "Heli akka."),
   ("thambi",
    "Sollu thambi."),
   ("thala",
    "Thala! What help?"),
   ("chetta",
    "Parayoo chetta."),
   ("saar",
    "Yes saar, tell me."),
   ("madam",
    "Yes madam, what do you need?"),
   ("mapla",
    "Mapla, enna da?"),
   ("figure",
    "Which figure macha?"),
   ("mass",
    "Mass ah? Explain."),
   ("scene",
    "En scene guru?"),
   ("tight",
    "Why tight face?"),
   ("ayyo",
    "Ayyo! What happened?"),
   ("arre",
    "Arre baba, bolo."),
   ("chal",
    "Chal, start telling."),
   ("oye",
    "Oye hero!"),
   ("lo",
    "Lo guru, talk."),
   ("ri",
    "Ri, yen aitu?"),
   ("ba",
    "Ba, sit and tell."),
   ("swalpa",
    "Swalpa detail kodi."),
   ("adjust",
    "Adjust maadi, heli."),
   ("chill",
    "Chill guru."),
   ("seri",
    "Seri, now tell."),
   ("okay da",
    "Okay da, next?"),
   ("correct",
    "Correct aa?"),
   ("super",
    "Super! Now what?"),
   ("top",
    "Top macha!"),
   ("full",
    "Full confusion ah?"),
   ("item",
    "Which item guru?"),
   ("matter",
    "En matter?"),
   ("ganchali",
    "Ganchali beda, straight heli."),
   ("summane",
    "Summane ya?"),
   ("nakko",
    "Nakko tension."),
   ("beda",
    "Beda worry."),
   ("illa",
    "Illa problem."),
   ("howdu",
    "Howdu howdu!"),
   ("yesu",
    "Yesu maga?"),
   ("nope",
    "Nope ah?"),
   ("sceneu",
    "Sceneu yen guru?"),
   ("mad",
    "Why mad bro?"),
   ("cool",
    "Cool macha."),
   ("hot",
    "Hot topic ah?"),
   ("fresh",
    "Fresh news ah?"),
   ("oldu",
    "Oldu story?"),
   ("waste",
    "Waste topic beda."),
   ("solid",
    "Solid idea!"),
   ("kick",
    "Kick ide!"),
   ("josh",
    "Full josh!"),
   ("speed",
    "Speed kammi maadi."),
   ("slow",
    "Slow ah heli."),
   ("fast",
    "Fast fast solra."),
   ("late",
    "Late aita?"),
   ("early",
    "Early bird ah?"),
   ("peak",
    "Peak level guru!"),
   ("level",
    "Level beda."),
   ("next",
    "Next enu?"),
   ("previous",
    "Previous story?"),
   ("random",
    "Random ah?"),
   ("direct",
    "Direct point heli."),
   ("indirect",
    "Round round beda."),
   ("clear",
    "Clear aa?"),
   ("doubt",
    "Doubt ide?"),
   ("confirm",
    "Confirm maadi."),
   ("cancel",
    "Cancel aita?"),
   ("start",
    "Start maadona?"),
   ("stop",
    "Stop guru."),
   ("go",
    "Go ahead."),
   ("come",
    "Come on macha."),
   ("sit",
    "Sit and tell."),
   ("stand",
    "Stand by guru."),
   ("wait",
    "Wait swalpa."),
   ("hold",
    "Hold on."),
   ("leave",
    "Leave it guru."),
   ("take",
    "Take easy."),
   ("give",
    "Give details."),
   ("bring",
    "Bring topic."),
   ("send",
    "Send info."),
   ("show",
    "Show me scene."),
   ("check",
    "Check maadi."),
   ("look",
    "Look guru."),
   ("watch",
    "Watch out."),
   ("listen",
    "Listen maga."),
   ("hear",
    "Hearing you."),
   ("speak",
    "Speak up."),
   ("talk",
    "Talk da."),
   ("tell",
    "Tell fully."),
   ("ask",
    "Ask freely."),
   ("answer",
    "Answer kodtini."),
   ("reply",
    "Reply fast."),
   ("text",
    "Text maadu."),
   ("call",
    "Call maadi."),
   ("ping",
    "Ping guru."),
   ("msg",
    "Message maadu."),
   ("status",
    "Status yen?"),
   ("update",
    "Update kodi."),
   ("upgrade",
    "Upgrade aita?"),
   ("downgrade",
    "Downgrade ya?"),
   ("fix",
    "Fix maadona."),
   ("repair",
    "Repair ide?"),
   ("break",
    "Break aita?"),
   ("build",
    "Build maadi."),
   ("create",
    "Create maadona."),
   ("delete",
    "Delete maadi."),
   ("remove",
    "Remove aita?"),
   ("add",
    "Add maadu."),
   ("insert",
    "Insert maadi."),
   ("edit",
    "Edit maadona."),
   ("copy",
    "Copy maadu."),
   ("paste",
    "Paste maadi."),
   ("cut",
    "Cut maadu."),
   ("save",
    "Save maadi."),
   ("open",
    "Open maadi."),
   ("close",
    "Close maadu."),
   ("lock",
    "Lock aita?"),
   ("unlock",
    "Unlock maadi."),
   ("run",
    "Run maadona."),
   ("execute",
    "Execute maadi."),
   ("error",
    "Error bandide?"),
   ("bug",
    "Bug ide?"),
   ("issue",
    "Issue yen?"),
   ("problem",
    "Problem heli."),
   ("solution",
    "Solution kodtini."),
   ("idea",
    "Idea super!"),
   ("plan",
    "Plan yen?"),
   ("project",
    "Project scene?"),
   ("task",
    "Task enu?"),
   ("work",
    "Work item?"),
   ("job",
    "Job update?"),
   ("salary",
    "Salary yen?"),
   ("money",
    "Money scene?"),
   ("loan",
    "Loan beka?"),
   ("rent",
    "Rent katra?"),
   ("food",
    "Food aita?"),
   ("tea",
    "Tea break?"),
   ("coffee",
    "Coffee beka?"),
   ("lunch",
    "Lunch aita?"),
   ("dinner",
    "Dinner plan?"),
   ("party",
    "Party scene?"),
   ("trip",
    "Trip hogona?"),
   ("movie",
    "Movie plan?"),
   ("match",
    "Match nodtira?"),
   ("game",
    "Game aata?"),
   ("timepass",
    "Timepass ah?"),
   ("bored",
    "Bored ah?"),
   ("sleep",
    "Sleep aita?"),
   ("wake",
    "Wake up guru!"),
   ("study",
    "Study maadtira?"),
   ("exam",
    "Exam tension?"),
   ("result",
    "Result bandide?"),
   ("rank",
    "Rank yen?"),
   ("fail",
    "Fail aita?"),
   ("pass",
    "Pass ayta?"),
   ("win",
    "Win maadona!"),
   ("lose",
    "Lose aita?"),
   ("fight",
    "Fight beda."),
   ("love",
    "Love story ah?"),
   ("crush",
    "Crush ide?"),
   ("breakup",
    "Breakup aita?"),
   ("marriage",
    "Marriage plan?"),
   ("family",
    "Family members chennagidara?"),
   ("friend",
    "Friend scene?"),
   ("group",
    "Group plan?"),
   ("gang",
    "Gang entry!"),
   ("area",
    "Area yen?"),
   ("local",
    "Local hero!"),
   ("global",
    "Global level!")]

/-- Python `str.split()` with no argument: maximal runs of
non-whitespace characters, no empty pieces. -/
def pySplitWsAux : List Char → List Char → List (List Char)
  | [], acc => if acc = [] then [] else [acc.reverse]
  | c :: rest, acc =>
      if c.isWhitespace then
        (if acc = [] then pySplitWsAux rest [] else acc.reverse :: pySplitWsAux rest [])
      else pySplitWsAux rest (c :: acc)

/-- Python `message.split()`. -/
def pySplitWs (l : List Char) : List (List Char) := pySplitWsAux l []

/-- Python `str.replace(old, "")` for a single character. -/
def pyRemove (c : Char) (l : List Char) : List Char := l.filter (fun d => d ≠ c)

/-- Python `str.strip("?.!")`. -/
def stripPunct (l : List Char) : List Char :=
  let punct : List Char := ['?', '.', '!']
  ((l.dropWhile (· ∈ punct)).reverse.dropWhile (· ∈ punct)).reverse

/-- Python `str.istitle()`: uppercase letters only after uncased
characters, lowercase only after cased ones, at least one cased
character.  State: (previous char was cased, seen a cased char). -/
def istitleAux : Bool → Bool → List Char → Bool
  | _, seen, [] => seen
  | prevCased, seen, c :: rest =>
      if c.isUpper then (if prevCased then false else istitleAux true true rest)
      else if c.isLower then (if prevCased then istitleAux true true rest else false)
      else istitleAux false seen rest

/-- Python `str.istitle()`. -/
def istitle (l : List Char) : Bool := istitleAux false false l

/-- First index of a word in a word list (Python `list.index`, guarded by
`in`). -/
def listIdxOf : List (List Char) → List Char → Option Nat
  | [], _ => none
  | w :: ws, t => if w = t then some 0 else (listIdxOf ws t).map (· + 1)

/-- Word-character class of an optional character, for `\b` boundaries
(start/end of string is a non-word position). -/
def wordB : Option Char → Bool
  | some c => isWordChar c
  | none => false

/-- Match of `\b<pat>\b` anchored at the current position, with `prev`
the character before it. -/
def bMatchAt (pat : List Char) (prev : Option Char) (t : List Char) : Bool :=
  pat.isPrefixOf t && (wordB prev != wordB pat.head?)
    && (wordB ((t.drop pat.length).head?) != wordB pat.getLast?)

/-- Scan for `re.search(r"\b<pat>\b", text)`. -/
def bOccursAux (pat : List Char) : Option Char → List Char → Bool
  | _, [] => false
  | prev, c :: rest => bMatchAt pat prev (c :: rest) || bOccursAux pat (some c) rest

/-- `re.search(r"\b" + re.escape(pat) + r"\b", text)` is not `None`. -/
def bOccurs (pat text : List Char) : Bool := bOccursAux pat none text

/-- `SlangManager.detect_slang` (`slang_manager.py` lines 58-105):
whole-word search of each trigger in the lowercased text; empty text is
never slang. -/
def detect_slang (message : String) : Bool :=
  if message.data = [] then false
  else slang_triggers.any (fun t => bOccurs t.data (lowerL message.data))

/-- `SlangManager.handle_conversational_slang` (`slang_manager.py` lines
107-316): normalize, look the text up as an exact key, then scan the map
in insertion order for a key contained in the text. -/
def handle_conversational_slang (message : String) : Option String :=
  let text_lower := pyRemove '!' (pyRemove '?' (msgLowerStripped message))
  match greetings_map.find? (fun kv => decide (kv.1.data = text_lower)) with
  | some kv => some kv.2
  | none =>
      (greetings_map.find? (fun kv => decide (kv.1.data <:+: text_lower))).map (·.2)

/-- The intent flags of `MAXY1_1.analyze_user_intent` (`models.py` lines
358-392). -/
structure Intents11 where
  greeting : Bool
  farewell : Bool
  gratitude : Bool
  personal_status : Bool
  identity : Bool
  entertainment : Bool
  time_query : Bool
  date_query : Bool
  help : Bool
  knowledge : Bool
  calculation : Bool
  weather : Bool
  simple_task : Bool
deriving DecidableEq, Repr

/-- `MAXY1_1.analyze_user_intent` (`models.py` lines 358-392): each flag
is containment of a phrase from its trigger set in the normalized text;
`simple_task` is a word count of at most 3 with no digit in the raw
message. -/
def analyze_user_intent_11 (message : String) : Intents11 :=
  let msgLower := msgLowerStripped message
  { greeting := containsAnyOf ["hi", "hello", "hey", "greetings", "howdy"] msgLower
    farewell := containsAnyOf ["bye", "goodbye", "see you", "farewell", "later"] msgLower
    gratitude := containsAnyOf ["thanks", "thank you", "appreciate", "grateful"] msgLower
    personal_status := containsAnyOf ["how are you", "how you doing"] msgLower
    identity := containsAnyOf ["your name", "who are you", "what are you"] msgLower
    entertainment := containsAnyOf ["joke", "funny", "laugh"] msgLower
    time_query := containsAnyOf ["time", "what time", "current time"] msgLower
    date_query := containsAnyOf ["date", "today", "what day"] msgLower
    help := containsAnyOf ["help", "what can you do"] msgLower
    knowledge := containsAnyOf ["what is", "who is", "how does", "explain", "tell me about",
      "info about", "information on", "details about"] msgLower
    calculation := containsAnyOf ["calculate", "math", "plus", "minus", "times", "divided"] msgLower
    weather := containsAnyOf ["weather", "temperature", "rain", "sunny"] msgLower
    simple_task := decide ((pySplitWs message.data).length ≤ 3)
      && !(message.data.any Char.isDigit) }

/-- `MAXY1_1.should_use_wikipedia` (`models.py` lines 203-263). -/
def should_use_wikipedia (message : String) : Bool :=
  wiki_keywords_11.any (fun kw => decide (kw.data <:+: lowerL message.data))
    && decide (message.data.length < 200)

/-- City extraction of the MAXY 1.1 weather branch (`models.py` lines
474-486): the word after "in" (stripped of punctuation, empty is
discarded), else the last word if it is title-cased and not a weather
word. -/
def extractCity11 (message : String) : Option (List Char) :=
  let words := pySplitWs message.data
  let c1 : Option (List Char) :=
    match listIdxOf words "in".data with
    | some idx => if idx + 1 < words.length then some (stripPunct (words.getD (idx + 1) [])) else none
    | none => none
  let c1 := match c1 with
    | some [] => none
    | x => x
  match c1 with
  | some c => some c
  | none =>
      if words ≠ [] then
        let potential := stripPunct (words.getLastD [])
        if istitle potential
            && decide (lowerL potential ∉ ["weather".data, "today".data, "now".data])
        then some potential else none
      else none

/-- City extraction of the MAXY 1.3 weather branch (`models.py` lines
1489-1493): only the word-after-"in" rule. -/
def extractCity13 (message : String) : Option (List Char) :=
  let words := pySplitWs message.data
  match listIdxOf words "in".data with
  | some idx =>
      if idx + 1 < words.length then
        (match stripPunct (words.getD (idx + 1) []) with
         | [] => none
         | c => some c)
      else none
  | none => none

/-- Which arm of `MAXY1_1.generate_concise_response` produced the reply. -/
inductive Branch11 where
  | knowledge
  | slangGreeting
  | greeting
  | farewell
  | gratitude
  | personalStatus
  | identity
  | entertainment
  | timeQuery
  | dateQuery
  | weatherInfo
  | weatherPrompt
  | simpleTaskLookup
  | simpleTask
  | help
  | calculation
  | defaultReply
deriving DecidableEq, Repr

/-- `MAXY1_1.generate_concise_response` (`models.py` lines 394-528)
reduced to the branch taken and the confidence returned; the two fallible
external lookups (quick knowledge lookup, weather service) are passed as
parameters (`wikiLookup` models both lookup call sites, which hit the
same sources with the same query). -/
def generate_concise_response_branch (message : String) (wikiLookup : Option String)
    (weatherResult : Option String) (useSlang : Bool) : Branch11 × ℚ :=
  let intents := analyze_user_intent_11 message
  if (intents.knowledge = true ∨ should_use_wikipedia message = true)
      ∧ wikiLookup.isSome = true then (.knowledge, 92/100)
  else match handle_conversational_slang message with
  | some _ => (.slangGreeting, 99/100)
  | none =>
    if intents.greeting = true then
      (.greeting, if intents.greeting = true ∧ message.data.length < 10 then 98/100 else 97/100)
    else if intents.farewell = true then (.farewell, 98/100)
    else if intents.gratitude = true then (.gratitude, 96/100)
    else if intents.personal_status = true then (.personalStatus, 94/100)
    else if intents.identity = true then (.identity, 96/100)
    else if intents.entertainment = true then (.entertainment, 92/100)
    else if intents.time_query = true then (.timeQuery, 97/100)
    else if intents.date_query = true then (.dateQuery, 97/100)
    else if intents.weather = true then
      (if (extractCity11 message).isSome = true ∧ weatherResult.isSome = true
       then (.weatherInfo, 95/100) else (.weatherPrompt, 90/100))
    else if intents.simple_task = true then
      (if (pySplitWs message.data).length ≤ 3 ∧ useSlang = false then
        (if wikiLookup.isSome = true then (.simpleTaskLookup, 92/100)
         else (.simpleTask, 88/100))
       else (.simpleTask, 88/100))
    else if intents.help = true then (.help, 93/100)
    else if intents.calculation = true then (.calculation, 91/100)
    else (.defaultReply, 85/100)

/-- The core intent flags of `MAXY1_3.analyze_user_intent`
(`models.py` lines 1399-1411). -/
structure Intents13 where
  greeting : Bool
  farewell : Bool
  gratitude : Bool
  personal_status : Bool
  identity : Bool
  entertainment : Bool
  time_query : Bool
  date_query : Bool
  help : Bool
  weather : Bool
  calculation : Bool
deriving DecidableEq, Repr

/-- The topic flags of `MAXY1_3.analyze_user_intent` (`models.py` lines
1414-1421), identical to those of `MAXY1_2.analyze_conversation_context`. -/
structure Topics13 where
  science : Bool
  history : Bool
  technology : Bool
  geography : Bool
  personal : Bool
  philosophy : Bool
deriving DecidableEq, Repr

/-- The intent flags of `MAXY1_3.analyze_user_intent` (`models.py` lines
1393-1411). -/
def intents13 (message : String) : Intents13 :=
  let msgLower := msgLowerStripped message
  { greeting := containsAnyOf ["hi", "hello", "hey", "greetings", "howdy", "namaskaar"] msgLower
    farewell := containsAnyOf ["bye", "goodbye", "see you", "farewell", "later"] msgLower
    gratitude := containsAnyOf ["thanks", "thank you", "appreciate", "grateful"] msgLower
    personal_status := containsAnyOf ["how are you", "how you doing"] msgLower
    identity := containsAnyOf ["your name", "who are you", "what are you"] msgLower
    entertainment := containsAnyOf ["joke", "funny", "laugh"] msgLower
    time_query := containsAnyOf ["time", "what time", "current time"] msgLower
    date_query := containsAnyOf ["date", "today", "what day"] msgLower
    help := containsAnyOf ["help", "what can you do"] msgLower
    weather := containsAnyOf ["weather", "temperature", "rain", "sunny"] msgLower
    calculation := containsAnyOf ["calculate", "math", "plus", "minus", "times", "divided"] msgLower }

/-- The topic flags of `MAXY1_3.analyze_user_intent` (`models.py` lines
1414-1421). -/
def topics13 (message : String) : Topics13 :=
  let msgLower := msgLowerStripped message
  { science := containsAnyOf ["science", "physics", "chemistry", "biology", "research"] msgLower
    history := containsAnyOf ["history", "ancient", "century", "war", "civilization"] msgLower
    technology := containsAnyOf ["technology", "computer", "internet", "software", "ai"] msgLower
    geography := containsAnyOf ["country", "capital", "city", "continent", "population"] msgLower
    personal := containsAnyOf ["i feel", "i think", "my opinion", "in my experience"] msgLower
    philosophy := containsAnyOf ["meaning", "philosophy", "why do we", "purpose", "existence"] msgLower }

/-- `MAXY1_3.is_code_request` (`models.py` lines 1123-1178), first
component only (the detected language is only passed to the external code
search): word-boundary match of a code indicator, or plain containment of
a technical concept. -/
def is_code_request (message : String) : Bool :=
  let msgLower := lowerL message.data
  technical_concepts.any (fun c => decide (c.data <:+: msgLower))
    || code_indicators.any (fun ind => bOccurs ind.data msgLower)

/-- `MAXY1_3.is_chart_request` guard (`models.py` lines 1227-1232), first
component only. -/
def is_chart_request (message : String) : Bool :=
  chart_indicators.any (fun ind => decide (ind.data <:+: lowerL message.data))

/-- `MAXY1_3.is_website_request` guard (`models.py` lines 1374-1391),
first component only. -/
def is_website_request (message : String) : Bool :=
  (containsAnyOf ["website", "web site", "page"] (lowerL message.data))
    && (containsAnyOf ["build", "create", "make", "design", "setup"] (lowerL message.data))

/-- `[A-Z]{1,5}\b` at the current position, after backtracking: an
uppercase run of length 1-5 followed by a non-word position. -/
def tickerAt (r : List Char) : Bool :=
  let run := r.takeWhile (·.isUpper)
  !run.isEmpty && decide (run.length ≤ 5) && !(wordB ((r.drop run.length).head?))

/-- The part of the stock regex after a matched keyword:
`\s+(?:of\s+)?([A-Z]{1,5})\b`. -/
def stockAfterKw (rest : List Char) : Bool :=
  let ws := rest.takeWhile Char.isWhitespace
  !ws.isEmpty &&
    (let r2 := rest.drop ws.length
     tickerAt r2 ||
       ("OF".data.isPrefixOf r2 &&
         (let r3 := r2.drop 2
          let ws2 := r3.takeWhile Char.isWhitespace
          !ws2.isEmpty && tickerAt (r3.drop ws2.length))))

/-- One anchored attempt of
`\b(stock|price|ticker)\s+(?:of\s+)?([A-Z]{1,5})\b`. -/
def stockMatchAt (prev : Option Char) (t : List Char) : Bool :=
  ["STOCK", "PRICE", "TICKER"].any (fun kw =>
    kw.data.isPrefixOf t && !(wordB prev) && stockAfterKw (t.drop kw.data.length))

/-- Scan loop of the stock regex search. -/
def stockSearchAux : Option Char → List Char → Bool
  | _, [] => false
  | prev, c :: rest => stockMatchAt prev (c :: rest) || stockSearchAux (some c) rest

/-- The stock-guard regex of `MAXY1_3.process_message` (`models.py` line
1542): `re.search(r"\b(stock|price|ticker)\s+(?:of\s+)?([A-Z]{1,5})\b",
message.upper())` is not `None`. -/
def stockSearch (message : String) : Bool :=
  stockSearchAux none (upperL message.data)

/-- An uploaded file as seen by `MAXY1_3.process_message`. -/
structure FileData where
  name : String
  content : String
deriving DecidableEq, Repr

/-- The fallible external collaborators of `MAXY1_3.process_message`,
passed explicitly: each `none`/empty value models that call failing or
returning nothing. -/
structure Ext13 where
  weather : Option String
  codeSearch : Option String
  websiteSearch : Option String
  chartImage : Option String
  stockInfo : Option String
  fileData : Option FileData
  csvOk : Bool
  wikiDeep : List Candidate
  webDeep : List Candidate
  webSearch : Except String (List Candidate)
  quickCands : List Candidate
  techSearch : Option String
deriving Repr

/-- Which arm of the `MAXY1_3.process_message` cascade produced the
reply. -/
inductive Branch13 where
  | weather
  | timeQuery
  | dateQuery
  | code
  | website
  | chart
  | stock
  | fileCsv
  | fileDoc
  | entertainment
  | research
  | greeting
  | identity
  | calculation
  | help
  | quickWiki
  | techSearch
  | fallbackDefault
deriving DecidableEq, Repr

/-- Final fallbacks of `MAXY1_3.process_message` (`models.py` lines
1615-1634): short-query quick lookup at 0.92, then the technical code
search, then the default conversational reply, both at 0.85. -/
def maxy13_final (message : String) (ext : Ext13) : Branch13 × ℚ :=
  if (pySplitWs message.data).length ≤ 3 ∧ detect_slang message = false
      ∧ (quick_wikipedia_lookup message ext.quickCands).isSome = true then
    (.quickWiki, 92/100)
  else if ext.techSearch.isSome = true then (.techSearch, 85/100)
  else (.fallbackDefault, 85/100)

/-- Conversational arms of `MAXY1_3.process_message` (`models.py` lines
1588-1613): the philosophy/personal arms call
`MAXY1_2.generate_detailed_response` with the 1.3 analysis dict, which
has no `inquiry_depth` key, raising `KeyError`; then greetings, identity,
calculation and help, then the final fallbacks. -/
def maxy13_conv (message : String) (ext : Ext13) : Except String (Branch13 × ℚ) :=
  if (topics13 message).philosophy = true then .error "KeyError: inquiry_depth"
  else if (topics13 message).personal = true then .error "KeyError: inquiry_depth"
  else if (intents13 message).greeting = true then .ok (.greeting, 98/100)
  else if (intents13 message).identity = true then .ok (.identity, 96/100)
  else if (intents13 message).calculation = true then .ok (.calculation, 90/100)
  else if (intents13 message).help = true then .ok (.help, 98/100)
  else .ok (maxy13_final message ext)

/-- The deep-research arm of `MAXY1_3.process_message` (`models.py` lines
1576-1585): like the MAXY 1.2 research flow, but only formatting when the
research succeeded, and falling through to the conversational arms
otherwise. -/
def maxy13_research (message : String) (ext : Ext13) : Except String (Branch13 × ℚ) :=
  if is_research_query message = true ∨ inquiry_depth message = "deep" then
    let rr := deep_wikipedia_research message ext.wikiDeep ext.webDeep
    let rr :=
      if rr.success = false ∨ strIn "does not reside" rr.response then
        let w := perform_web_search message ext.webSearch
        if w.success = true then w else rr
      else rr
    if rr.success = true then
      match format_research_response rr.response (inquiry_depth message) with
      | .ok _ => .ok (.research, rr.confidence)
      | .error e => .error e
    else maxy13_conv message ext
  else maxy13_conv message ext

/-- The entertainment arm (`models.py` lines 1570-1573). -/
def maxy13_entertainment (message : String) (ext : Ext13) : Except String (Branch13 × ℚ) :=
  if (intents13 message).entertainment = true then .ok (.entertainment, 92/100)
  else maxy13_research message ext

/-- The file-intelligence arm (`models.py` lines 1551-1565): CSV files
answer at 0.98 when parsing succeeds (otherwise fall through), other
files at 0.95. -/
def maxy13_file (message : String) (ext : Ext13) : Except String (Branch13 × ℚ) :=
  match ext.fileData with
  | some fd =>
      if ".csv".data <:+ lowerL fd.name.data then
        (if ext.csvOk = true then .ok (.fileCsv, 98/100) else maxy13_entertainment message ext)
      else .ok (.fileDoc, 95/100)
  | none => maxy13_entertainment message ext

/-- `MAXY1_3.process_message` (`models.py` lines 1447-1649) reduced to
the branch taken and the confidence returned, with every external call a
parameter; `.error` models an uncaught Python exception. -/
def maxy13_process_branch (message : String) (ext : Ext13) : Except String (Branch13 × ℚ) :=
  if (intents13 message).weather = true ∧ (extractCity13 message).isSome = true
      ∧ ext.weather.isSome = true then .ok (.weather, 95/100)
  else if (intents13 message).time_query = true then .ok (.timeQuery, 97/100)
  else if (intents13 message).date_query = true then .ok (.dateQuery, 97/100)
  else if is_code_request message = true ∧ is_chart_request message = false
      ∧ ext.codeSearch.isSome = true then .ok (.code, 96/100)
  else if is_website_request message = true ∧ ext.websiteSearch.isSome = true then
    .ok (.website, 95/100)
  else if is_chart_request message = true ∧ ext.chartImage.isSome = true then
    .ok (.chart, 95/100)
  else if stockSearch message = true ∧ ext.stockInfo.isSome = true then .ok (.stock, 95/100)
  else maxy13_file message ext

/-! ### Helper lemmas about the ranking embedding -/

theorem mem_insertDesc {x c : Ranked} {l : List Ranked} :
    x ∈ insertDesc c l ↔ x = c ∨ x ∈ l := by
  induction l with
  | nil => simp [insertDesc]
  | cons y ys ih =>
      simp only [insertDesc]
      split
      · simp
      · simp [ih]; tauto

theorem mem_sortDesc {x : Ranked} {l : List Ranked} :
    x ∈ sortDesc l ↔ x ∈ l := by
  induction l with
  | nil => simp [sortDesc]
  | cons y ys ih => simp [sortDesc, mem_insertDesc, ih]

theorem kw_matches_le (q t b : String) :
    kw_matches q t b ≤ (get_keywords q).length :=
  List.countP_le_length _

theorem base_score_nonneg (q t b : String) : 0 ≤ base_score q t b := by
  unfold base_score
  positivity

theorem base_score_le_one (q t b : String) (h : get_keywords q ≠ []) :
    base_score q t b ≤ 1 := by
  have hl : 0 < (((get_keywords q).length : ℚ)) := by
    have : 0 < (get_keywords q).length := List.length_pos.mpr h
    exact_mod_cast this
  unfold base_score
  rw [div_le_one hl]
  exact_mod_cast kw_matches_le q t b

theorem score_relevance_nonneg (q t b : String) : 0 ≤ score_relevance q t b := by
  unfold score_relevance
  split
  · norm_num
  split
  · norm_num
  split
  · have := base_score_nonneg q t b; nlinarith
  · exact base_score_nonneg q t b

theorem score_relevance_le_one (q t b : String) : score_relevance q t b ≤ 1 := by
  unfold score_relevance
  split
  · norm_num
  split
  · norm_num
  next hk _ =>
    split
    · have h0 := base_score_nonneg q t b
      have h1 := base_score_le_one q t b hk
      nlinarith
    · exact base_score_le_one q t b hk

/-! ### Claim theorems C4, C1, C10 -/

/-- C4: every relevance score computed by `score_relevance`, and hence the
`relevance_score` attached by `verify_facts` to every candidate, lies in
the closed interval `[0, 1]`. -/
theorem claim4_relevance_in_unit_interval :
    (∀ q t b : String, 0 ≤ score_relevance q t b ∧ score_relevance q t b ≤ 1) ∧
    (∀ (q : String) (rs : List Candidate), ∀ r ∈ verify_facts q rs,
      0 ≤ r.relevance ∧ r.relevance ≤ 1) := by
  constructor
  · exact fun q t b => ⟨score_relevance_nonneg q t b, score_relevance_le_one q t b⟩
  · intro q rs r hr
    rw [verify_facts, mem_sortDesc, List.mem_map] at hr
    obtain ⟨c, -, rfl⟩ := hr
    exact ⟨score_relevance_nonneg _ _ _, score_relevance_le_one _ _ _⟩

/-- C4 witness: the bound instantiated on a concrete ranked candidate. -/
theorem claim4_witness :
    0 ≤ score_relevance "cats" "Cats" "about cats" ∧
    score_relevance "cats" "Cats" "about cats" ≤ 1 :=
  claim4_relevance_in_unit_interval.2 "cats" [⟨"Cats", "about cats", "", ""⟩]
    ⟨⟨"Cats", "about cats", "", ""⟩, score_relevance "cats" "Cats" "about cats"⟩
    (by simp [verify_facts, sortDesc, insertDesc])

/-- C1 counterexample: for the query "Who is Marie Curie", the capitalized
token "Who" is also treated as a proper name, so a candidate body that
avoids "Marie" and "Curie" but happens to contain the letter sequence
"who" (here inside "whole") does not trigger the identity guard: the
score is the plain keyword score 0, not 0.1. -/
theorem claim1_counterexample :
    score_relevance "Who is Marie Curie" "Result" "the whole story" = 0 ∧
    (0 : ℚ) ≠ 1/10 := by
  constructor
  · rw [score_relevance, if_neg (by decide), if_neg (by decide), if_neg (by decide)]
    have h1 : kw_matches "Who is Marie Curie" "Result" "the whole story" = 0 := by decide
    have h2 : (get_keywords "Who is Marie Curie").length = 2 := by decide
    rw [base_score, h1, h2]
    norm_num
  · norm_num

/-- C1 (amended): the identity guard forces the score to exactly 0.1 for
the query "Who is Marie Curie" provided the candidate content avoids all
three lowercased capitalized tokens of the query — "who", "marie" and
"curie" — and, in general, whenever at least one keyword was extracted,
the query contains an identity-indicator phrase, and none of its
capitalized tokens occurs in the candidate content. -/
theorem claim1_identity_guard :
    (∀ t b : String,
        ¬ ("who".data <:+: contentOf t b) →
        ¬ ("marie".data <:+: contentOf t b) →
        ¬ ("curie".data <:+: contentOf t b) →
        score_relevance "Who is Marie Curie" t b = 1/10) ∧
    (∀ q t b : String, get_keywords q ≠ [] → identityGuardActive q t b →
        score_relevance q t b = 1/10) := by
  have general : ∀ q t b : String, get_keywords q ≠ [] → identityGuardActive q t b →
      score_relevance q t b = 1/10 := by
    intro q t b hk hg
    rw [score_relevance, if_neg hk, if_pos hg]
  refine ⟨?_, general⟩
  intro t b h1 h2 h3
  refine general _ t b (by decide) ⟨by decide, by decide, ?_⟩
  have hc : capNames ("Who is Marie Curie").data =
      ["Who".data, "Marie".data, "Curie".data] := by decide
  have e1 : lowerL "Who".data = "who".data := by decide
  have e2 : lowerL "Marie".data = "marie".data := by decide
  have e3 : lowerL "Curie".data = "curie".data := by decide
  rw [hc]
  simp [List.countP_cons, e1, e2, e3, h1, h2, h3]

/-- C1 witness: a candidate avoiding "who", "marie" and "curie" scores 0.1. -/
theorem claim1_witness :
    (¬ ("who".data <:+: contentOf "Result" "a physicist of note")) ∧
    score_relevance "Who is Marie Curie" "Result" "a physicist of note" = 1/10 :=
  ⟨by decide,
   claim1_identity_guard.1 "Result" "a physicist of note"
     (by decide) (by decide) (by decide)⟩

/-- C10: if the lowercased query contains "manga", "manhwa", "comic" or
"read" as a substring — also inside a longer word — the junk-source
penalty never fires, and the score is the unpenalized value. -/
theorem claim10_entertainment_query_skips_junk_penalty :
    ∀ q t b : String,
      (entertainment_keys.any (fun ek => decide (ek.data <:+: lowerL q.data)) = true) →
      ¬ junkPenalized q b ∧
      score_relevance q t b =
        (if get_keywords q = [] then (1 : ℚ)/2
         else if identityGuardActive q t b then 1/10
         else base_score q t b) := by
  intro q t b hq
  have hnj : ¬ junkPenalized q b := by
    intro hpen
    unfold junkPenalized at hpen
    rw [hq] at hpen
    exact absurd hpen.1 (by simp)
  refine ⟨hnj, ?_⟩
  unfold score_relevance
  by_cases hk : get_keywords q = []
  · simp [hk]
  · by_cases hg : identityGuardActive q t b
    · simp [hk, hg]
    · simp [hk, hg, hnj]

/-- C10 witness: "thread" contains "read", so a body mentioning reddit is
not penalized. -/
theorem claim10_witness :
    (entertainment_keys.any
      (fun ek => decide (ek.data <:+: lowerL ("summarize the thread").data)) = true) ∧
    ¬ junkPenalized "summarize the thread" "a thread on reddit" ∧
    score_relevance "summarize the thread" "" "a thread on reddit" =
      (if get_keywords "summarize the thread" = [] then (1 : ℚ)/2
       else if identityGuardActive "summarize the thread" "" "a thread on reddit" then 1/10
       else base_score "summarize the thread" "" "a thread on reddit") :=
  ⟨by decide,
   claim10_entertainment_query_skips_junk_penalty
     "summarize the thread" "" "a thread on reddit" (by decide)⟩

/-! ### Sortedness of the ranking -/

theorem pairwise_insertDesc {c : Ranked} {l : List Ranked}
    (h : l.Pairwise (fun a b => b.relevance ≤ a.relevance)) :
    (insertDesc c l).Pairwise (fun a b => b.relevance ≤ a.relevance) := by
  induction l with
  | nil => simp [insertDesc]
  | cons x xs ih =>
      rw [List.pairwise_cons] at h
      simp only [insertDesc]
      split
      next hle =>
        rw [List.pairwise_cons]
        refine ⟨?_, List.pairwise_cons.mpr h⟩
        intro a ha
        rcases List.mem_cons.mp ha with rfl | ha
        · exact hle
        · exact le_trans (h.1 a ha) hle
      next hgt =>
        rw [List.pairwise_cons]
        refine ⟨?_, ih h.2⟩
        intro a ha
        rcases mem_insertDesc.mp ha with rfl | ha
        · exact le_of_not_le hgt
        · exact h.1 a ha

theorem pairwise_sortDesc (l : List Ranked) :
    (sortDesc l).Pairwise (fun a b => b.relevance ≤ a.relevance) := by
  induction l with
  | nil => simp [sortDesc]
  | cons x xs ih => exact pairwise_insertDesc ih

theorem verify_facts_head_max {q : String} {rs : List Candidate} {c : Ranked}
    {rest : List Ranked} (h : verify_facts q rs = c :: rest) :
    ∀ r ∈ verify_facts q rs, r.relevance ≤ c.relevance := by
  have hp := pairwise_sortDesc (rs.map (fun r => ⟨r, score_relevance q r.title r.body⟩))
  rw [show sortDesc (rs.map (fun r => ⟨r, score_relevance q r.title r.body⟩)) =
        verify_facts q rs from rfl, h, List.pairwise_cons] at hp
  intro r hr
  rw [h, List.mem_cons] at hr
  rcases hr with rfl | hr
  · exact le_refl _
  · exact hp.1 r hr

/-! ### Claim C3 -/

/-- C3 counterexample: deep research selects a candidate for synthesis
even when every relevance score is strictly below the 0.40 threshold —
the fallback takes the top-ranked candidate regardless. -/
theorem claim3_counterexample :
    deepSelect "what is love" [⟨"Foo", "bar", "u", "web"⟩] =
      some ⟨⟨"Foo", "bar", "u", "web"⟩, 0⟩ ∧ (0 : ℚ) < 2/5 := by
  constructor
  · have hs : score_relevance "what is love" "Foo" "bar" = 0 := by
      rw [score_relevance, if_neg (by decide), if_neg (by decide), if_neg (by decide)]
      have h1 : kw_matches "what is love" "Foo" "bar" = 0 := by decide
      rw [base_score, h1]
      norm_num
    have hv : verify_facts "what is love" [⟨"Foo", "bar", "u", "web"⟩] =
        [⟨⟨"Foo", "bar", "u", "web"⟩, 0⟩] := by
      simp [verify_facts, sortDesc, insertDesc, hs]
    rw [deepSelect]
    rw [hv]
    norm_num [List.find?]
  · norm_num

/-- C3 (amended): `get_best_match` returns `none` exactly when there is no
candidate or the top-ranked score is strictly below the caller-supplied
threshold, and returns the top-ranked candidate — whose score bounds every
other candidate's score — when the top score is ≥ the threshold (so also
at equality).  The fast lookup invokes it at threshold 0.25
(`quick_wikipedia_lookup`); deep research instead uses `deepSelect`, whose
below-threshold fallback is recorded in the counterexample. -/
theorem claim3_best_match_threshold :
    (∀ (q : String) (θ : ℚ), get_best_match q [] θ = none) ∧
    (∀ (q : String) (rs : List Candidate) (θ : ℚ) (c : Ranked) (rest : List Ranked),
      verify_facts q rs = c :: rest →
      (c.relevance < θ → get_best_match q rs θ = none) ∧
      (θ ≤ c.relevance → get_best_match q rs θ = some c) ∧
      (∀ r ∈ verify_facts q rs, r.relevance ≤ c.relevance)) := by
  constructor
  · intro q θ
    simp [get_best_match, verify_facts, sortDesc]
  · intro q rs θ c rest h
    refine ⟨?_, ?_, verify_facts_head_max h⟩
    · intro hlt
      simp only [get_best_match, h]
      rw [if_neg (not_le.mpr hlt)]
    · intro hle
      simp only [get_best_match, h]
      rw [if_pos hle]

/-- C3 witness: with a single fully-matching candidate (score 1), selection
at threshold exactly 1 returns the candidate, and at threshold 2 returns
`none`. -/
theorem claim3_witness :
    get_best_match "what is love" [⟨"Love", "love is all about love", "u", "web"⟩] 1 =
      some ⟨⟨"Love", "love is all about love", "u", "web"⟩, 1⟩ ∧
    get_best_match "what is love" [⟨"Love", "love is all about love", "u", "web"⟩] 2 =
      none := by
  have hs : score_relevance "what is love" "Love" "love is all about love" = 1 := by
    rw [score_relevance, if_neg (by decide), if_neg (by decide), if_neg (by decide)]
    have h1 : kw_matches "what is love" "Love" "love is all about love" = 1 := by decide
    have h2 : (get_keywords "what is love").length = 1 := by decide
    rw [base_score, h1, h2]
    norm_num
  have hv : verify_facts "what is love" [⟨"Love", "love is all about love", "u", "web"⟩] =
      ⟨⟨"Love", "love is all about love", "u", "web"⟩, 1⟩ :: [] := by
    simp [verify_facts, sortDesc, insertDesc, hs]
  constructor
  · exact (claim3_best_match_threshold.2 _ _ _ _ _ hv).2.1 (by norm_num)
  · exact (claim3_best_match_threshold.2 _ _ _ _ _ hv).1 (by norm_num)

/-! ### Claims C6 and C8 -/

/-- C6: depth classification checks the indicator sets in the fixed order
surface, moderate, deep; the first matching set decides, surface is the
default, and in particular a query matching both a surface and a deep
indicator classifies as surface. -/
theorem claim6_depth_priority :
    ∀ msg : String,
      (containsAnyOf surface_indicators (msgLowerStripped msg) = true →
        inquiry_depth msg = "surface") ∧
      (containsAnyOf surface_indicators (msgLowerStripped msg) = false →
       containsAnyOf moderate_indicators (msgLowerStripped msg) = true →
        inquiry_depth msg = "moderate") ∧
      (containsAnyOf surface_indicators (msgLowerStripped msg) = false →
       containsAnyOf moderate_indicators (msgLowerStripped msg) = false →
       containsAnyOf deep_indicators (msgLowerStripped msg) = true →
        inquiry_depth msg = "deep") ∧
      (containsAnyOf surface_indicators (msgLowerStripped msg) = false →
       containsAnyOf moderate_indicators (msgLowerStripped msg) = false →
       containsAnyOf deep_indicators (msgLowerStripped msg) = false →
        inquiry_depth msg = "surface") ∧
      (containsAnyOf surface_indicators (msgLowerStripped msg) = true →
       containsAnyOf deep_indicators (msgLowerStripped msg) = true →
        inquiry_depth msg = "surface") := by
  intro msg
  refine ⟨?_, ?_, ?_, ?_, ?_⟩
  · intro h1
    simp [inquiry_depth, depth_indicators, List.find?, h1]
  · intro h1 h2
    simp [inquiry_depth, depth_indicators, List.find?, h1, h2]
  · intro h1 h2 h3
    simp [inquiry_depth, depth_indicators, List.find?, h1, h2, h3]
  · intro h1 h2 h3
    simp [inquiry_depth, depth_indicators, List.find?, h1, h2, h3]
  · intro h1 _
    simp [inquiry_depth, depth_indicators, List.find?, h1]

/-- C6 witness: "what is research" matches a surface indicator ("what is")
and a deep indicator ("research") and classifies as surface. -/
theorem claim6_witness :
    containsAnyOf surface_indicators (msgLowerStripped "what is research") = true ∧
    containsAnyOf deep_indicators (msgLowerStripped "what is research") = true ∧
    inquiry_depth "what is research" = "surface" :=
  ⟨by decide, by decide,
   (claim6_depth_priority "what is research").2.2.2.2 (by decide) (by decide)⟩

/-- C8: the research-vs-conversation classifier counts matches of the two
indicator sets separately, classifies as conversation (false) whenever the
conversation count exceeds the research count, and otherwise classifies as
research exactly when the research count is positive. -/
theorem claim8_research_vs_conversation :
    ∀ msg : String,
      (research_score msg < conversation_score msg → is_research_query msg = false) ∧
      (conversation_score msg ≤ research_score msg →
        (is_research_query msg = true ↔ 0 < research_score msg)) := by
  intro msg
  constructor
  · intro h
    rw [is_research_query, if_pos h]
  · intro h
    rw [is_research_query, if_neg (not_lt.mpr h)]
    simp

/-- C8 witness: "tell me a joke" has one conversation indicator and no
research indicator, hence is classified as conversation. -/
theorem claim8_witness :
    research_score "tell me a joke" < conversation_score "tell me a joke" ∧
    is_research_query "tell me a joke" = false :=
  ⟨by decide, (claim8_research_vs_conversation "tell me a joke").1 (by decide)⟩

/-! ### The splitting machinery: basic properties -/

theorem firstSplit_spec {sep : List Char} :
    ∀ {l a b : List Char}, firstSplit sep l = some (a, b) → a ++ sep ++ b = l := by
  intro l
  induction l with
  | nil => intro a b h; exact Option.noConfusion h
  | cons c rest ih =>
      intro a b h
      rw [firstSplit] at h
      split at h
      next hp =>
        simp only [Option.some.injEq, Prod.mk.injEq] at h
        obtain ⟨h1, h2⟩ := h
        subst h1; subst h2
        obtain ⟨t, ht⟩ := List.isPrefixOf_iff_prefix.mp hp
        simp only [List.nil_append]
        rw [← ht, List.drop_left]
      next =>
        cases hfs : firstSplit sep rest with
        | none => rw [hfs] at h; exact Option.noConfusion h
        | some p =>
            obtain ⟨p1, p2⟩ := p
            have h2 : some ((c :: p1, p2) : List Char × List Char) = some (a, b) := by
              rw [← h, hfs]; rfl
            simp only [Option.some.injEq, Prod.mk.injEq] at h2
            obtain ⟨h1, h2⟩ := h2
            subst h1; subst h2
            have ihr := ih hfs
            simp only [List.cons_append]
            rw [List.append_assoc] at ihr ⊢
            rw [ihr]

theorem firstSplit_length {sep : List Char} (hsep : sep ≠ []) :
    ∀ {l a b : List Char}, firstSplit sep l = some (a, b) → b.length < l.length := by
  intro l a b h
  have hspec := firstSplit_spec h
  have hlen : a.length + (sep.length + b.length) = l.length := by
    rw [← hspec]; simp [List.length_append]
  have hpos : 0 < sep.length := List.length_pos.mpr hsep
  omega

theorem pySplitF_congr {sep : List Char} (hsep : sep ≠ []) :
    ∀ (k : Nat) (l : List Char) (n m : Nat), l.length ≤ k → l.length < n → l.length < m →
      pySplitF n sep l = pySplitF m sep l := by
  intro k
  induction k with
  | zero =>
      intro l n m hk hn hm
      have hl : l = [] := List.eq_nil_of_length_eq_zero (by omega)
      subst hl
      cases n with
      | zero => omega
      | succ n' =>
          cases m with
          | zero => omega
          | succ m' => rfl
  | succ k ih =>
      intro l n m hk hn hm
      cases n with
      | zero => omega
      | succ n' =>
          cases m with
          | zero => omega
          | succ m' =>
              rw [pySplitF, pySplitF]
              cases hfs : firstSplit sep l with
              | none => rfl
              | some p =>
                  obtain ⟨a, b⟩ := p
                  have hb := firstSplit_length hsep hfs
                  show a :: pySplitF n' sep b = a :: pySplitF m' sep b
                  rw [ih b n' m' (by omega) (by omega) (by omega)]

theorem pySplit_eq_none {sep l : List Char} (h : firstSplit sep l = none) :
    pySplit sep l = [l] := by
  rw [pySplit, pySplitF, h]

theorem pySplit_eq_some {sep l a b : List Char} (hsep : sep ≠ [])
    (h : firstSplit sep l = some (a, b)) :
    pySplit sep l = a :: pySplit sep b := by
  have hb := firstSplit_length hsep h
  rw [pySplit, pySplitF, h]
  show a :: pySplitF l.length sep b = a :: pySplit sep b
  rw [pySplit, pySplitF_congr hsep b.length b l.length (b.length + 1) le_rfl hb (by omega)]

theorem pySplit_ne_nil {sep l : List Char} : pySplit sep l ≠ [] := by
  rw [pySplit, pySplitF]
  cases firstSplit sep l with
  | none => simp
  | some p => obtain ⟨a, b⟩ := p; simp

/-! ### Occurrence analysis for the sentence separator -/

theorem singleton_prefix_iff {a : Char} {v : List Char} :
    [a] <+: v ↔ v.head? = some a := by
  cases v with
  | nil => simp
  | cons x xs =>
      simp [List.cons_prefix_cons, eq_comm]

theorem infix_cons_intro {a : List Char} {c : Char} {l : List Char}
    (h : a <:+: l) : a <:+: c :: l :=
  h.trans (List.suffix_cons c l).isInfix

theorem firstSplit_none_iff {sep : List Char} (hsep : sep ≠ []) :
    ∀ {l : List Char}, firstSplit sep l = none ↔ ¬ sep <:+: l := by
  intro l
  induction l with
  | nil =>
      simp only [firstSplit, List.infix_nil, true_iff]
      exact hsep
  | cons c rest ih =>
      rw [firstSplit]
      by_cases hp : sep.isPrefixOf (c :: rest)
      · have hp' : sep <+: c :: rest := List.isPrefixOf_iff_prefix.mp hp
        simp [hp, List.infix_cons_iff, hp']
      · have hp' : ¬ sep <+: c :: rest := fun h => hp (List.isPrefixOf_iff_prefix.mpr h)
        rw [if_neg hp]
        constructor
        · intro h
          rw [List.infix_cons_iff]
          rintro (hc | hc)
          · exact hp' hc
          · have hn : firstSplit sep rest = none := by
              cases hfs : firstSplit sep rest with
              | none => rfl
              | some p => rw [hfs] at h; exact Option.noConfusion h
            exact (ih.mp hn) hc
        · intro h
          have hnr : ¬ sep <:+: rest := fun hc => h (List.infix_cons_iff.mpr (Or.inr hc))
          rw [ih.mpr hnr]
          rfl

theorem firstSplit_first_free {sep : List Char} (hsep : sep ≠ []) :
    ∀ {l a b : List Char}, firstSplit sep l = some (a, b) → ¬ sep <:+: a := by
  intro l
  induction l with
  | nil => intro a b h; exact absurd h (by simp [firstSplit])
  | cons c rest ih =>
      intro a b h
      rw [firstSplit] at h
      split at h
      next hp =>
        simp only [Option.some.injEq, Prod.mk.injEq] at h
        obtain ⟨h1, -⟩ := h
        subst h1
        rw [List.infix_nil]
        exact hsep
      next hp =>
        cases hfs : firstSplit sep rest with
        | none => rw [hfs] at h; exact Option.noConfusion h
        | some p =>
            obtain ⟨p1, p2⟩ := p
            have h2 : some ((c :: p1, p2) : List Char × List Char) = some (a, b) := by
              rw [← h, hfs]; rfl
            simp only [Option.some.injEq, Prod.mk.injEq] at h2
            obtain ⟨h1, -⟩ := h2
            subst h1
            intro hcon
            rcases List.infix_cons_iff.mp hcon with hpre | hinf
            · have hp1 : p1 <+: rest := ⟨sep ++ p2, by
                have := firstSplit_spec hfs
                rw [← this, List.append_assoc]⟩
              have : sep <+: c :: rest :=
                hpre.trans (List.cons_prefix_cons.mpr ⟨rfl, hp1⟩)
              exact hp (List.isPrefixOf_iff_prefix.mpr this)
            · exact ih hfs hinf

theorem isPrefixOf_dotSpace_iff {l : List Char} :
    dotSpace.isPrefixOf l = true ↔ ∃ t, l = '.' :: ' ' :: t := by
  rw [List.isPrefixOf_iff_prefix]
  cases l with
  | nil => simp [dotSpace]
  | cons x xs =>
      cases xs with
      | nil => simp [dotSpace, List.cons_prefix_cons]
      | cons y ys =>
          constructor
          · intro h
            rcases List.cons_prefix_cons.mp h with ⟨h1, h2⟩
            rcases List.cons_prefix_cons.mp h2 with ⟨h3, -⟩
            exact ⟨ys, by rw [← h1, ← h3]⟩
          · rintro ⟨t, ht⟩
            injection ht with e1 ht
            injection ht with e2 ht
            subst e1; subst e2; subst ht
            exact List.cons_prefix_cons.mpr ⟨rfl, List.cons_prefix_cons.mpr ⟨rfl, List.nil_prefix⟩⟩

theorem firstSplit_ds_append {x t : List Char} (hx : ¬ dotSpace <:+: x) :
    firstSplit dotSpace (x ++ dotSpace ++ t) = some (x, t) := by
  induction x with
  | nil =>
      show firstSplit dotSpace ('.' :: ' ' :: t) = some ([], t)
      rw [firstSplit, if_pos (by simp [dotSpace, List.isPrefixOf])]
      rfl
  | cons c x' ih =>
      have hx' : ¬ dotSpace <:+: x' := fun h => hx (infix_cons_intro h)
      show firstSplit dotSpace (c :: (x' ++ dotSpace ++ t)) = some (c :: x', t)
      rw [firstSplit]
      have hp : ¬ dotSpace.isPrefixOf (c :: (x' ++ dotSpace ++ t)) = true := by
        intro hcon
        obtain ⟨u, hu⟩ := isPrefixOf_dotSpace_iff.mp hcon
        injection hu with h1 h2
        cases x' with
        | nil =>
            simp only [List.nil_append] at h2
            injection h2 with h3 hrest
            exact absurd h3 (by decide)
        | cons d x'' =>
            simp only [List.cons_append] at h2
            injection h2 with h3 hrest
            apply hx
            subst h1; subst h3
            exact (List.cons_prefix_cons.mpr ⟨rfl,
              List.cons_prefix_cons.mpr ⟨rfl, List.nil_prefix⟩⟩ :
                dotSpace <+: '.' :: ' ' :: x'').isInfix
      rw [if_neg hp, ih hx']
      rfl

theorem pySplit_ds_append {x t : List Char} (hx : ¬ dotSpace <:+: x) :
    pySplit dotSpace (x ++ dotSpace ++ t) = x :: pySplit dotSpace t :=
  pySplit_eq_some (by decide) (firstSplit_ds_append hx)

theorem pySplit_ds_free_aux :
    ∀ (n : Nat) (l : List Char), l.length ≤ n →
      ∀ p ∈ pySplit dotSpace l, ¬ dotSpace <:+: p := by
  intro n
  induction n with
  | zero =>
      intro l hl p hp
      have : l = [] := List.eq_nil_of_length_eq_zero (by omega)
      subst this
      rw [pySplit_eq_none (by rw [firstSplit])] at hp
      rcases List.mem_singleton.mp hp with rfl
      simp [List.infix_nil, dotSpace]
  | succ n ih =>
      intro l hl p hp
      cases hfs : firstSplit dotSpace l with
      | none =>
          rw [pySplit_eq_none hfs] at hp
          rcases List.mem_singleton.mp hp with rfl
          exact (firstSplit_none_iff (by decide)).mp hfs
      | some q =>
          obtain ⟨a, b⟩ := q
          rw [pySplit_eq_some (by decide) hfs] at hp
          rcases List.mem_cons.mp hp with rfl | hp
          · exact firstSplit_first_free (by decide) hfs
          · exact ih b (by have := @firstSplit_length dotSpace (by decide) _ _ _ hfs; omega) p hp

theorem pySplit_ds_free {l p : List Char} (hp : p ∈ pySplit dotSpace l) :
    ¬ dotSpace <:+: p :=
  pySplit_ds_free_aux l.length l le_rfl p hp

theorem pyJoin_cons {x : List Char} {zs : List (List Char)} (h : zs ≠ []) :
    pyJoin dotSpace (x :: zs) = x ++ dotSpace ++ pyJoin dotSpace zs := by
  cases zs with
  | nil => exact absurd rfl h
  | cons y ys => rfl

theorem pyJoin_pySplit_aux :
    ∀ (n : Nat) (l : List Char), l.length ≤ n →
      pyJoin dotSpace (pySplit dotSpace l) = l := by
  intro n
  induction n with
  | zero =>
      intro l hl
      have : l = [] := List.eq_nil_of_length_eq_zero (by omega)
      subst this
      rw [pySplit_eq_none (by rw [firstSplit])]
      rfl
  | succ n ih =>
      intro l hl
      cases hfs : firstSplit dotSpace l with
      | none => rw [pySplit_eq_none hfs]; rfl
      | some q =>
          obtain ⟨a, b⟩ := q
          rw [pySplit_eq_some (by decide) hfs]
          rw [pyJoin_cons pySplit_ne_nil]
          rw [ih b (by have := @firstSplit_length dotSpace (by decide) _ _ _ hfs; omega)]
          exact firstSplit_spec hfs

theorem pyJoin_pySplit (l : List Char) :
    pyJoin dotSpace (pySplit dotSpace l) = l :=
  pyJoin_pySplit_aux l.length l le_rfl

theorem pySplit_pyJoin :
    ∀ (pieces : List (List Char)), pieces ≠ [] →
      (∀ p ∈ pieces, ¬ dotSpace <:+: p) →
      pySplit dotSpace (pyJoin dotSpace pieces) = pieces := by
  intro pieces
  induction pieces with
  | nil => intro h; exact absurd rfl h
  | cons x rest ih =>
      intro _ hfree
      cases rest with
      | nil =>
          show pySplit dotSpace x = [x]
          exact pySplit_eq_none ((firstSplit_none_iff (by decide)).mpr (hfree x (by simp)))
      | cons y ys =>
          rw [pyJoin_cons (by simp)]
          rw [pySplit_ds_append (hfree x (by simp))]
          rw [ih (by simp) (fun p hp => hfree p (List.mem_cons_of_mem x hp))]

theorem ds_free_append {v : List Char} (hv : ¬ dotSpace <:+: v) :
    ∀ u : List Char, ¬ dotSpace <:+: u →
      (u.getLast? = some '.' → v.head? ≠ some ' ') →
      ¬ dotSpace <:+: (u ++ v) := by
  intro u
  induction u with
  | nil => intro _ _; simpa using hv
  | cons c u' ih =>
      intro hu hside hcon
      rw [show (c :: u') ++ v = c :: (u' ++ v) from rfl] at hcon
      rcases List.infix_cons_iff.mp hcon with hpre | hinf
      · rcases List.cons_prefix_cons.mp hpre with ⟨hc, htail⟩
        cases u' with
        | nil =>
            have hvhead : v.head? = some ' ' :=
              singleton_prefix_iff.mp (by simpa using htail)
            apply hside _ hvhead
            rw [← hc]
            rfl
        | cons d u'' =>
            have hd : ' ' = d := by
              have h2 : [' '] <+: d :: (u'' ++ v) := htail
              exact (List.cons_prefix_cons.mp h2).1
            apply hu
            rw [← hc, ← hd]
            exact (List.cons_prefix_cons.mpr ⟨rfl,
              List.cons_prefix_cons.mpr ⟨rfl, List.nil_prefix⟩⟩ :
                dotSpace <+: '.' :: ' ' :: u'').isInfix
      · cases u' with
        | nil => exact hv (by simpa using hinf)
        | cons d u'' =>
            have hu' : ¬ dotSpace <:+: (d :: u'') := fun h => hu (infix_cons_intro h)
            have hside' : (d :: u'').getLast? = some '.' → v.head? ≠ some ' ' := by
              intro hl
              exact hside (by rw [List.getLast?_cons_cons]; exact hl)
            exact ih hu' hside' hinf

theorem firstSplit_ds_prepend {l : List Char} :
    ∀ u : List Char, ¬ dotSpace <:+: u → u.getLast? ≠ some '.' →
      firstSplit dotSpace (u ++ l) =
        (firstSplit dotSpace l).map (fun p => (u ++ p.1, p.2)) := by
  intro u
  induction u with
  | nil =>
      intro _ _
      rw [List.nil_append]
      cases firstSplit dotSpace l with
      | none => rfl
      | some p => simp
  | cons c u' ih =>
      intro hu hlast
      show firstSplit dotSpace (c :: (u' ++ l)) = _
      rw [firstSplit]
      have hp : ¬ dotSpace.isPrefixOf (c :: (u' ++ l)) = true := by
        intro hcon
        obtain ⟨w, hw⟩ := isPrefixOf_dotSpace_iff.mp hcon
        injection hw with h1 h2
        cases u' with
        | nil =>
            apply hlast
            rw [← h1]
            rfl
        | cons d u'' =>
            simp only [List.cons_append] at h2
            injection h2 with h3 hrest
            apply hu
            subst h1; subst h3
            exact (List.cons_prefix_cons.mpr ⟨rfl,
              List.cons_prefix_cons.mpr ⟨rfl, List.nil_prefix⟩⟩ :
                dotSpace <+: '.' :: ' ' :: u'').isInfix
      have hu' : ¬ dotSpace <:+: u' := fun h => hu (infix_cons_intro h)
      have hlast' : u'.getLast? ≠ some '.' := by
        cases u' with
        | nil => simp
        | cons d u'' =>
            rw [← @List.getLast?_cons_cons _ c d u'']
            exact hlast
      rw [if_neg hp, ih hu' hlast', Option.map_map]
      rfl

theorem pySplit_ds_prepend {u l : List Char} (hu : ¬ dotSpace <:+: u)
    (hlast : u.getLast? ≠ some '.') :
    pySplit dotSpace (u ++ l) =
      (u ++ (pySplit dotSpace l).headD []) :: (pySplit dotSpace l).tail := by
  cases hfs : firstSplit dotSpace l with
  | none =>
      have h2 : firstSplit dotSpace (u ++ l) = none := by
        rw [firstSplit_ds_prepend u hu hlast, hfs]
        rfl
      rw [pySplit_eq_none hfs, pySplit_eq_none h2]
      rfl
  | some q =>
      obtain ⟨a, b⟩ := q
      have h2 : firstSplit dotSpace (u ++ l) = some (u ++ a, b) := by
        rw [firstSplit_ds_prepend u hu hlast, hfs]
        rfl
      rw [pySplit_eq_some (by decide) hfs, pySplit_eq_some (by decide) h2]
      rfl

theorem adjustLast_ne_nil {f : List Char → List Char} {xs : List (List Char)}
    (h : xs ≠ []) : adjustLast f xs ≠ [] := by
  cases xs with
  | nil => exact absurd rfl h
  | cons x rest => cases rest <;> simp [adjustLast]

theorem adjustLast_cons {f : List Char → List Char} {x : List Char}
    {zs : List (List Char)} (h : zs ≠ []) :
    adjustLast f (x :: zs) = x :: adjustLast f zs := by
  cases zs with
  | nil => exact absurd rfl h
  | cons y ys => rfl

theorem adjustLast_length {f : List Char → List Char} :
    ∀ xs : List (List Char), (adjustLast f xs).length = xs.length := by
  intro xs
  induction xs with
  | nil => rfl
  | cons x rest ih =>
      cases rest with
      | nil => rfl
      | cons y ys => rw [adjustLast_cons (by simp)]; simp only [List.length_cons, ih]

theorem adjustLast_sound {P : List Char → Prop} {f : List Char → List Char}
    (hf : ∀ q, P q → P (f q)) :
    ∀ xs : List (List Char), (∀ q ∈ xs, P q) → ∀ p ∈ adjustLast f xs, P p := by
  intro xs
  induction xs with
  | nil => intro _ p hp; exact absurd hp (by simp [adjustLast])
  | cons x rest ih =>
      intro hall p hp
      cases rest with
      | nil =>
          rcases List.mem_singleton.mp hp with rfl
          exact hf x (hall x (by simp))
      | cons y ys =>
          rw [adjustLast_cons (by simp)] at hp
          rcases List.mem_cons.mp hp with rfl | hp
          · exact hall p (by simp)
          · exact ih (fun q hq => hall q (List.mem_cons_of_mem x hq)) p hp

theorem pyJoin_adjustLast_append {v : List Char} :
    ∀ xs : List (List Char), xs ≠ [] →
      pyJoin dotSpace (adjustLast (· ++ v) xs) = pyJoin dotSpace xs ++ v := by
  intro xs
  induction xs with
  | nil => intro h; exact absurd rfl h
  | cons x rest ih =>
      intro _
      cases rest with
      | nil => rfl
      | cons y ys =>
          rw [adjustLast_cons (by simp), pyJoin_cons (adjustLast_ne_nil (by simp)),
            pyJoin_cons (by simp), ih (by simp)]
          simp [List.append_assoc]

theorem pySplit_ds_append_end_aux {v : List Char} (hv : ¬ dotSpace <:+: v)
    (hvh : v.head? ≠ some ' ') :
    ∀ (n : Nat) (l : List Char), l.length ≤ n →
      pySplit dotSpace (l ++ v) = adjustLast (· ++ v) (pySplit dotSpace l) := by
  intro n
  induction n with
  | zero =>
      intro l hl
      have : l = [] := List.eq_nil_of_length_eq_zero (by omega)
      subst this
      rw [List.nil_append]
      have h1 : pySplit dotSpace ([] : List Char) = [[]] :=
        pySplit_eq_none (by rw [firstSplit])
      rw [h1, pySplit_eq_none ((firstSplit_none_iff (by decide)).mpr hv)]
      rfl
  | succ n ih =>
      intro l hl
      cases hfs : firstSplit dotSpace l with
      | none =>
          have hlf : ¬ dotSpace <:+: l := (firstSplit_none_iff (by decide)).mp hfs
          have hfree : ¬ dotSpace <:+: (l ++ v) :=
            ds_free_append hv l hlf (fun _ => hvh)
          rw [pySplit_eq_none hfs,
            pySplit_eq_none ((firstSplit_none_iff (by decide)).mpr hfree)]
          rfl
      | some q =>
          obtain ⟨a, b⟩ := q
          have hspec := firstSplit_spec hfs
          have hfree := firstSplit_first_free (by decide) hfs
          have hblen := @firstSplit_length dotSpace (by decide) _ _ _ hfs
          rw [pySplit_eq_some (by decide) hfs,
            adjustLast_cons pySplit_ne_nil, ← ih b (by omega)]
          rw [← hspec, List.append_assoc (a ++ dotSpace) b v]
          exact pySplit_ds_append hfree

/-! ### Further structure lemmas for joins -/

theorem pyStripL_sublist_infix_free (l : List Char) : pyStripL l <:+: l := by
  unfold pyStripL
  have h1 : l.dropWhile Char.isWhitespace <:+ l := List.dropWhile_suffix _
  have h2 : ((l.dropWhile Char.isWhitespace).reverse.dropWhile Char.isWhitespace) <:+
      (l.dropWhile Char.isWhitespace).reverse := List.dropWhile_suffix _
  have h3 : ((l.dropWhile Char.isWhitespace).reverse.dropWhile Char.isWhitespace).reverse <+:
      l.dropWhile Char.isWhitespace := by
    have := @List.reverse_suffix Char
      ((l.dropWhile Char.isWhitespace).reverse.dropWhile Char.isWhitespace).reverse
      (l.dropWhile Char.isWhitespace)
    rw [List.reverse_reverse] at this
    exact this.mp h2
  exact h3.isInfix.trans h1.isInfix

theorem ds_free_of_infix {a b : List Char} (h : a <:+: b) (hb : ¬ dotSpace <:+: b) :
    ¬ dotSpace <:+: a := fun hc => hb (hc.trans h)

theorem pyJoin_ne_nil {xs : List (List Char)} (hne : xs ≠ [])
    (hnn : ∀ p ∈ xs, p ≠ []) : pyJoin dotSpace xs ≠ [] := by
  cases xs with
  | nil => exact absurd rfl hne
  | cons x rest =>
      cases rest with
      | nil => exact hnn x (by simp)
      | cons y ys => simp [pyJoin, dotSpace]

theorem pyJoin_dropLast :
    ∀ xs : List (List Char), xs ≠ [] → (∀ p ∈ xs, p ≠ []) →
      (pyJoin dotSpace xs).dropLast = pyJoin dotSpace (adjustLast List.dropLast xs) := by
  intro xs
  induction xs with
  | nil => intro h; exact absurd rfl h
  | cons x rest ih =>
      intro _ hnn
      cases rest with
      | nil => rfl
      | cons y ys =>
          have hj : pyJoin dotSpace (y :: ys) ≠ [] :=
            pyJoin_ne_nil (by simp) (fun p hp => hnn p (List.mem_cons_of_mem x hp))
          rw [pyJoin_cons (by simp), adjustLast_cons (by simp),
            pyJoin_cons (adjustLast_ne_nil (by simp)),
            List.append_assoc, List.dropLast_append_of_ne_nil x (by simp [dotSpace]),
            List.dropLast_append_of_ne_nil dotSpace hj,
            ih (by simp) (fun p hp => hnn p (List.mem_cons_of_mem x hp))]
          simp [List.append_assoc]

theorem pyJoin_prepend_head {u : List Char} :
    ∀ {L : List (List Char)}, L ≠ [] →
      u ++ pyJoin dotSpace L = pyJoin dotSpace ((u ++ L.headD []) :: L.tail) := by
  intro L hne
  cases L with
  | nil => exact absurd rfl hne
  | cons l0 rest =>
      cases rest with
      | nil => rfl
      | cons m ms =>
          show u ++ pyJoin dotSpace (l0 :: m :: ms) = pyJoin dotSpace ((u ++ l0) :: m :: ms)
          rw [show pyJoin dotSpace (l0 :: m :: ms) =
                l0 ++ dotSpace ++ pyJoin dotSpace (m :: ms) from rfl,
              show pyJoin dotSpace ((u ++ l0) :: m :: ms) =
                (u ++ l0) ++ dotSpace ++ pyJoin dotSpace (m :: ms) from rfl]
          simp [List.append_assoc]

theorem sentCount_le_split_len (l : List Char) :
    sentCount l ≤ (pySplit dotSpace l).length :=
  List.length_filter_le _ _

theorem sentCount_le_of_eq_join {s : List Char} {L : List (List Char)}
    (hne : L ≠ []) (hfree : ∀ p ∈ L, ¬ dotSpace <:+: p)
    (heq : s = pyJoin dotSpace L) (hlen : L.length ≤ 3) : sentCount s ≤ 3 :=
  calc sentCount s ≤ (pySplit dotSpace s).length := sentCount_le_split_len s
  _ = L.length := by rw [heq, pySplit_pyJoin L hne hfree]
  _ ≤ 3 := hlen

theorem ds_free_dot_append {q : List Char} (h : ¬ dotSpace <:+: q) :
    ¬ dotSpace <:+: (q ++ ['.']) :=
  ds_free_append (by decide) q h (fun _ => by decide)

theorem ds_free_slang_comma {slang : List Char} (hs : ¬ dotSpace <:+: slang) :
    ¬ dotSpace <:+: (slang ++ [',', ' ']) :=
  ds_free_append (by decide) slang hs (fun _ => by decide)

theorem ds_free_comma_slang_dot {slang : List Char} (hs : ¬ dotSpace <:+: slang) :
    ¬ dotSpace <:+: ([',', ' '] ++ (slang ++ ['.'])) :=
  ds_free_append (ds_free_dot_append hs ∘ fun h => h) [',', ' '] (by decide)
    (fun h => absurd h (by decide))

theorem ds_free_dropLast {q : List Char} (h : ¬ dotSpace <:+: q) :
    ¬ dotSpace <:+: q.dropLast :=
  ds_free_of_infix (List.dropLast_prefix q).isInfix h

theorem getLast?_slang_comma (slang : List Char) :
    (slang ++ [',', ' ']).getLast? = some ' ' := by
  rw [show slang ++ [',', ' '] = (slang ++ [',']) ++ [' '] from by simp]
  exact List.getLast?_concat _

/-! ### Claim C9 -/

theorem enhance_bound {C slang : List Char} {L : List (List Char)}
    (hs : ¬ dotSpace <:+: slang)
    (hC : C = pyJoin dotSpace L) (hne : L ≠ [])
    (hfree : ∀ p ∈ L, ¬ dotSpace <:+: p) (hnn : ∀ p ∈ L, p ≠ [])
    (hlen : L.length ≤ 3) :
    ∀ mode : EnhanceMode, sentCount (enhance_text C mode slang) ≤ 3 := by
  intro mode
  cases mode with
  | skip => exact sentCount_le_of_eq_join hne hfree hC hlen
  | prepend =>
      obtain ⟨l0, rest, rfl⟩ : ∃ a b, L = a :: b := by
        cases L with
        | nil => exact absurd rfl hne
        | cons a b => exact ⟨a, b, rfl⟩
      have heq : enhance_text C .prepend slang =
          pyJoin dotSpace (((slang ++ [',', ' ']) ++ l0) :: rest) := by
        show slang ++ [',', ' '] ++ C = _
        rw [hC]
        exact pyJoin_prepend_head (by simp)
      refine sentCount_le_of_eq_join (by simp) ?_ heq ?_
      · intro p hp
        rcases List.mem_cons.mp hp with rfl | hp
        · refine ds_free_append (hfree l0 (by simp)) _ (ds_free_slang_comma hs) ?_
          intro h
          rw [getLast?_slang_comma] at h
          simp at h
        · exact hfree p (List.mem_cons_of_mem l0 hp)
      · simpa using hlen
  | append =>
      show sentCount ((if C.getLast? = some '.' then C.dropLast else C)
          ++ [',', ' '] ++ slang ++ ['.']) ≤ 3
      have hv : ¬ dotSpace <:+: ([',', ' '] ++ (slang ++ ['.'])) :=
        ds_free_comma_slang_dot hs
      have hstep : ∀ q : List Char, ¬ dotSpace <:+: q →
          ¬ dotSpace <:+: (q ++ ([',', ' '] ++ (slang ++ ['.']))) := by
        intro q hq
        refine ds_free_append hv q hq ?_
        intro _
        simp
      by_cases hdot : C.getLast? = some '.'
      · rw [if_pos hdot]
        have heq : C.dropLast ++ [',', ' '] ++ slang ++ ['.'] =
            pyJoin dotSpace (adjustLast (· ++ ([',', ' '] ++ (slang ++ ['.'])))
              (adjustLast List.dropLast L)) := by
          rw [pyJoin_adjustLast_append _ (adjustLast_ne_nil hne),
            ← pyJoin_dropLast L hne hnn, ← hC]
          simp [List.append_assoc]
        refine sentCount_le_of_eq_join (adjustLast_ne_nil (adjustLast_ne_nil hne)) ?_ heq ?_
        · exact adjustLast_sound hstep _
            (@adjustLast_sound (fun q => ¬ dotSpace <:+: q) List.dropLast
              (fun q hq => ds_free_dropLast hq) L hfree)
        · rw [adjustLast_length, adjustLast_length]
          exact hlen
      · rw [if_neg hdot]
        have heq : C ++ [',', ' '] ++ slang ++ ['.'] =
            pyJoin dotSpace (adjustLast (· ++ ([',', ' '] ++ (slang ++ ['.']))) L) := by
          rw [pyJoin_adjustLast_append _ hne, ← hC]
          simp [List.append_assoc]
        refine sentCount_le_of_eq_join (adjustLast_ne_nil hne) ?_ heq ?_
        · exact adjustLast_sound hstep _ hfree
        · rw [adjustLast_length]
          exact hlen

theorem maxy11_cap_join (r : List Char)
    (hclean : ∀ p ∈ pySplit dotSpace r, pyStripL p ≠ []) :
    ∃ L : List (List Char), maxy11_cap r = pyJoin dotSpace L ∧ L ≠ [] ∧
      (∀ p ∈ L, ¬ dotSpace <:+: p) ∧ (∀ p ∈ L, p ≠ []) ∧ L.length ≤ 3 := by
  have hfree_pieces : ∀ p ∈ pySplit dotSpace r, ¬ dotSpace <:+: p :=
    fun p hp => pySplit_ds_free hp
  have hsent : ((pySplit dotSpace r).map pyStripL).filter (fun s => !s.isEmpty) =
      (pySplit dotSpace r).map pyStripL := by
    rw [List.filter_eq_self]
    intro a ha
    rcases List.mem_map.mp ha with ⟨q, hq, rfl⟩
    simpa [List.isEmpty_iff] using hclean q hq
  by_cases h3 : 3 < (((pySplit dotSpace r).map pyStripL).filter (fun s => !s.isEmpty)).length
  · have ht_len : ((((pySplit dotSpace r).map pyStripL).filter
        (fun s => !s.isEmpty)).take 3).length = 3 := by
      rw [List.length_take]
      exact Nat.min_eq_left (by omega)
    have ht_free : ∀ p ∈ (((pySplit dotSpace r).map pyStripL).filter
        (fun s => !s.isEmpty)).take 3, ¬ dotSpace <:+: p := by
      intro p hp
      have h1 := (List.mem_filter.mp (List.mem_of_mem_take hp)).1
      rcases List.mem_map.mp h1 with ⟨q, hq, rfl⟩
      exact ds_free_of_infix (pyStripL_sublist_infix_free q) (hfree_pieces q hq)
    have ht_nn : ∀ p ∈ (((pySplit dotSpace r).map pyStripL).filter
        (fun s => !s.isEmpty)).take 3, p ≠ [] := by
      intro p hp
      have h2 := (List.mem_filter.mp (List.mem_of_mem_take hp)).2
      simpa [List.isEmpty_iff] using h2
    have ht_ne : ((((pySplit dotSpace r).map pyStripL).filter
        (fun s => !s.isEmpty)).take 3) ≠ [] := by
      intro h
      rw [h] at ht_len
      simp at ht_len
    by_cases hdot : (pyJoin dotSpace ((((pySplit dotSpace r).map pyStripL).filter
        (fun s => !s.isEmpty)).take 3)).getLast? = some '.'
    · refine ⟨_, ?_, ht_ne, ht_free, ht_nn, by omega⟩
      simp only [maxy11_cap]
      rw [if_pos h3, if_pos hdot]
    · refine ⟨adjustLast (· ++ ['.']) ((((pySplit dotSpace r).map pyStripL).filter
        (fun s => !s.isEmpty)).take 3), ?_, adjustLast_ne_nil ht_ne,
        adjustLast_sound (fun q hq => ds_free_dot_append hq) _ ht_free,
        adjustLast_sound (fun q _ => by simp) _ ht_nn, ?_⟩
      · simp only [maxy11_cap]
        rw [if_pos h3, if_neg hdot]
        rw [pyJoin_adjustLast_append _ ht_ne]
      · rw [adjustLast_length]
        omega
  · refine ⟨pySplit dotSpace r, ?_, pySplit_ne_nil, hfree_pieces, ?_, ?_⟩
    · simp only [maxy11_cap]
      rw [if_neg h3, pyJoin_pySplit]
    · intro p hp
      intro hnil
      apply hclean p hp
      rw [hnil]
      rfl
    · have := h3
      rw [hsent, List.length_map] at this
      omega

/-- C9: for every response text all of whose `". "`-split pieces have a
nonempty strip (which is how the fast tier's templates and knowledge
answers are built), every slang word not containing `". "`, and every
outcome of the random slang-enhancement draw, the finalized MAXY 1.1
response contains at most 3 sentences when split on `". "` — even when
the upstream text had more. -/
theorem claim9_fast_tier_sentence_cap :
    ∀ (response slang : List Char) (mode : EnhanceMode),
      (∀ p ∈ pySplit dotSpace response, pyStripL p ≠ []) →
      ¬ dotSpace <:+: slang →
      sentCount (maxy11_finalize response mode slang) ≤ 3 := by
  intro r slang mode hclean hs
  obtain ⟨L, hC, hne, hfree, hnn, hlen⟩ := maxy11_cap_join r hclean
  exact enhance_bound hs hC hne hfree hnn hlen mode

/-- C9 witness: a five-sentence lookup answer is cut to 3 sentences even
with a slang word appended. -/
theorem claim9_witness :
    (∀ p ∈ pySplit dotSpace
        ("Cats are mammals. They purr often. They sleep a lot. They hunt mice. They love boxes.").data,
      pyStripL p ≠ []) ∧
    ¬ dotSpace <:+: ("Maga").data ∧
    sentCount (maxy11_finalize
        ("Cats are mammals. They purr often. They sleep a lot. They hunt mice. They love boxes.").data
        EnhanceMode.append ("Maga").data) ≤ 3 :=
  ⟨by decide, by decide,
   claim9_fast_tier_sentence_cap _ _ EnhanceMode.append (by decide) (by decide)⟩

/-! ### Claims C5 and C2 -/

theorem pyIdx_ok_of {l : List String} {i : Int} (h0 : 0 ≤ i) (h : i < l.length) :
    pyIdx l i = .ok (l.getD i.toNat "") := by
  simp only [pyIdx]
  rw [if_neg (show ¬ (i < 0) by omega)]
  rw [if_pos ⟨h0, h⟩]

theorem pyIdx_ok_neg {l : List String} {i : Int} (h0 : i < 0) (h : 0 ≤ i + l.length) :
    pyIdx l i = .ok (l.getD (i + l.length).toNat "") := by
  simp only [pyIdx]
  rw [if_pos (show i < 0 from h0)]
  rw [if_pos ⟨h, by omega⟩]

theorem collectIdx_cons_ok {l : List String} {i : Int} {is : List Int} {s : String}
    {rest : List String} (h1 : pyIdx l i = .ok s) (h2 : collectIdx l is = .ok rest) :
    collectIdx l (i :: is) = .ok (s :: rest) := by
  rw [collectIdx, h1, h2]

/-- C5 (amended): the depth formatter returns the report unchanged at
tier `deep`; at the other tiers it re-joins a fixed index selection of
the blank-line-split sections — positions 0, 1, 2 plus the last two for
`surface` (for a wiki-sourced report: header, overview, insights,
conclusion, references), and positions 0-3 plus the last two for
`moderate` (all six sections of a wiki-sourced report).  Content is never
altered, only selected, and the section counts satisfy 5 ≤ 6 ≤ |deep|. -/
theorem claim5_depth_formatter (raw : String) :
    format_research_response raw "deep" = .ok raw ∧
    (4 ≤ (pySplitStr raw "\n\n").length →
      format_research_response raw "surface" =
        .ok (pyJoinStr "\n\n"
          [(pySplitStr raw "\n\n").getD 0 "", (pySplitStr raw "\n\n").getD 1 "",
           (pySplitStr raw "\n\n").getD 2 "",
           (pySplitStr raw "\n\n").getD ((pySplitStr raw "\n\n").length - 2) "",
           (pySplitStr raw "\n\n").getD ((pySplitStr raw "\n\n").length - 1) ""]) ∧
      format_research_response raw "moderate" =
        .ok (pyJoinStr "\n\n"
          [(pySplitStr raw "\n\n").getD 0 "", (pySplitStr raw "\n\n").getD 1 "",
           (pySplitStr raw "\n\n").getD 2 "", (pySplitStr raw "\n\n").getD 3 "",
           (pySplitStr raw "\n\n").getD ((pySplitStr raw "\n\n").length - 2) "",
           (pySplitStr raw "\n\n").getD ((pySplitStr raw "\n\n").length - 1) ""])) := by
  constructor
  · rw [format_research_response, if_pos rfl]
  · intro h4
    have hlen4 : 4 ≤ (pySplitStr raw "\n\n").length := h4
    have h0 : pyIdx (pySplitStr raw "\n\n") 0 =
        .ok ((pySplitStr raw "\n\n").getD 0 "") := pyIdx_ok_of (by omega) (by omega)
    have h1 : pyIdx (pySplitStr raw "\n\n") 1 =
        .ok ((pySplitStr raw "\n\n").getD 1 "") := pyIdx_ok_of (by omega) (by omega)
    have h2 : pyIdx (pySplitStr raw "\n\n") 2 =
        .ok ((pySplitStr raw "\n\n").getD 2 "") := pyIdx_ok_of (by omega) (by omega)
    have h3 : pyIdx (pySplitStr raw "\n\n") 3 =
        .ok ((pySplitStr raw "\n\n").getD 3 "") := pyIdx_ok_of (by omega) (by omega)
    have hm2 : pyIdx (pySplitStr raw "\n\n") (-2) =
        .ok ((pySplitStr raw "\n\n").getD ((pySplitStr raw "\n\n").length - 2) "") := by
      rw [pyIdx_ok_neg (by omega) (by omega)]
      have he : ((-2 : Int) + ((pySplitStr raw "\n\n").length : Int)).toNat =
          (pySplitStr raw "\n\n").length - 2 := by omega
      rw [he]
    have hm1 : pyIdx (pySplitStr raw "\n\n") (-1) =
        .ok ((pySplitStr raw "\n\n").getD ((pySplitStr raw "\n\n").length - 1) "") := by
      rw [pyIdx_ok_neg (by omega) (by omega)]
      have he : ((-1 : Int) + ((pySplitStr raw "\n\n").length : Int)).toNat =
          (pySplitStr raw "\n\n").length - 1 := by omega
      rw [he]
    have hnil : collectIdx (pySplitStr raw "\n\n") [] = .ok [] := rfl
    constructor
    · have hstep : format_research_response raw "surface" =
          match collectIdx (pySplitStr raw "\n\n") [0, 1, 2, -2, -1] with
          | .ok selected => Except.ok (pyJoinStr "\n\n" selected)
          | .error e => Except.error e := rfl
      rw [hstep,
        collectIdx_cons_ok h0 (collectIdx_cons_ok h1 (collectIdx_cons_ok h2
          (collectIdx_cons_ok hm2 (collectIdx_cons_ok hm1 hnil))))]
    · have hstep : format_research_response raw "moderate" =
          match collectIdx (pySplitStr raw "\n\n") [0, 1, 2, 3, -2, -1] with
          | .ok selected => Except.ok (pyJoinStr "\n\n" selected)
          | .error e => Except.error e := rfl
      rw [hstep,
        collectIdx_cons_ok h0 (collectIdx_cons_ok h1 (collectIdx_cons_ok h2
          (collectIdx_cons_ok h3 (collectIdx_cons_ok hm2 (collectIdx_cons_ok hm1 hnil)))))]

set_option maxRecDepth 100000 in
/-- C5 counterexample: on a genuine synthesized report (two-paragraph
wiki summary, relevance 90%), the surface-tier output still contains the
academic-conclusion section, and has 5 sections rather than the claimed
{header, overview, references}. -/
theorem claim5_counterexample :
    strIn "### IV. ACADEMIC CONCLUSION"
      ((format_research_response
        (buildReport "Ada Lovelace"
          "Ada Lovelace was an English mathematician chiefly known for her work on the analytical engine proposed by Charles Babbage in the nineteenth century.\n\nHer notes on the engine include what is regarded as the first algorithm intended to be carried out by a machine, and she is often cited as the first computer programmer in history."
          "https://example.org/ada" "wikipedia" 90) "surface").toOption.getD "") ∧
    (pySplitStr
      ((format_research_response
        (buildReport "Ada Lovelace"
          "Ada Lovelace was an English mathematician chiefly known for her work on the analytical engine proposed by Charles Babbage in the nineteenth century.\n\nHer notes on the engine include what is regarded as the first algorithm intended to be carried out by a machine, and she is often cited as the first computer programmer in history."
          "https://example.org/ada" "wikipedia" 90) "surface").toOption.getD "")
      "\n\n").length = 5 := by
  constructor
  · decide
  · decide

set_option maxRecDepth 100000 in
/-- C5 witness: the amended formatter equations instantiated on the same
synthesized report, whose section list has length 6 ≥ 4. -/
theorem claim5_witness :
    4 ≤ (pySplitStr
      (buildReport "Ada Lovelace"
        "Ada Lovelace was an English mathematician chiefly known for her work on the analytical engine proposed by Charles Babbage in the nineteenth century.\n\nHer notes on the engine include what is regarded as the first algorithm intended to be carried out by a machine, and she is often cited as the first computer programmer in history."
        "https://example.org/ada" "wikipedia" 90) "\n\n").length ∧
    format_research_response
      (buildReport "Ada Lovelace"
        "Ada Lovelace was an English mathematician chiefly known for her work on the analytical engine proposed by Charles Babbage in the nineteenth century.\n\nHer notes on the engine include what is regarded as the first algorithm intended to be carried out by a machine, and she is often cited as the first computer programmer in history."
        "https://example.org/ada" "wikipedia" 90) "deep" =
      .ok (buildReport "Ada Lovelace"
        "Ada Lovelace was an English mathematician chiefly known for her work on the analytical engine proposed by Charles Babbage in the nineteenth century.\n\nHer notes on the engine include what is regarded as the first algorithm intended to be carried out by a machine, and she is often cited as the first computer programmer in history."
        "https://example.org/ada" "wikipedia" 90) :=
  ⟨by decide,
   (claim5_depth_formatter
     (buildReport "Ada Lovelace"
       "Ada Lovelace was an English mathematician chiefly known for her work on the analytical engine proposed by Charles Babbage in the nineteenth century.\n\nHer notes on the engine include what is regarded as the first algorithm intended to be carried out by a machine, and she is often cited as the first computer programmer in history."
       "https://example.org/ada" "wikipedia" 90)).1⟩

set_option maxRecDepth 100000 in
/-- C2: a research query at surface depth whose two retrieval sources
both return nothing makes `deep_wikipedia_research` produce the
single-paragraph no-data message; the depth formatter then indexes
`sections[1]` of a one-section list and the resulting `IndexError`
escapes `process_message` uncaught, contradicting the claim that the
caller never observes a raw exception. -/
theorem claim2_exception_escapes :
    is_research_query "what is love" = true ∧
    inquiry_depth "what is love" = "surface" ∧
    maxy12_process_research "what is love" [] [] (Except.error "timeout") =
      Except.error "IndexError: list index out of range" := by
  refine ⟨by decide, by decide, ?_⟩
  rfl

/-! ### Whitespace-only inputs -/

theorem ws_char_cases {c : Char} (h : c.isWhitespace = true) :
    c = ' ' ∨ c = '\t' ∨ c = '\r' ∨ c = '\n' := by
  simp [Char.isWhitespace] at h
  tauto

theorem ws_toLower {c : Char} (h : c.isWhitespace = true) : c.toLower = c := by
  rcases ws_char_cases h with rfl | rfl | rfl | rfl <;> decide

theorem ws_toUpper {c : Char} (h : c.isWhitespace = true) : c.toUpper = c := by
  rcases ws_char_cases h with rfl | rfl | rfl | rfl <;> decide

theorem wordChar_ws_false {c : Char} (h : c.isWhitespace = true) : isWordChar c = false := by
  rcases ws_char_cases h with rfl | rfl | rfl | rfl <;> decide

theorem ws_not_digit {c : Char} (h : c.isWhitespace = true) : c.isDigit = false := by
  rcases ws_char_cases h with rfl | rfl | rfl | rfl <;> decide

theorem lowerL_of_ws {l : List Char} (h : ∀ c ∈ l, c.isWhitespace = true) :
    lowerL l = l := by
  induction l with
  | nil => rfl
  | cons c rest ih =>
      show c.toLower :: lowerL rest = c :: rest
      rw [ws_toLower (h c (by simp)), ih (fun d hd => h d (List.mem_cons_of_mem c hd))]

theorem upperL_of_ws {l : List Char} (h : ∀ c ∈ l, c.isWhitespace = true) :
    upperL l = l := by
  induction l with
  | nil => rfl
  | cons c rest ih =>
      show c.toUpper :: upperL rest = c :: rest
      rw [ws_toUpper (h c (by simp)), ih (fun d hd => h d (List.mem_cons_of_mem c hd))]

theorem stripped_nil {msg : String} (h : ∀ c ∈ msg.data, c.isWhitespace = true) :
    msgLowerStripped msg = [] := by
  unfold msgLowerStripped pyStripL
  rw [lowerL_of_ws h, List.dropWhile_eq_nil_iff.mpr h]
  rfl

theorem infix_ws_false {l pat : List Char} (hws : ∀ c ∈ l, c.isWhitespace = true)
    (hat : ∃ c ∈ pat, c.isWhitespace = false) : ¬ pat <:+: l := by
  intro hinf
  obtain ⟨c, hcmem, hcw⟩ := hat
  obtain ⟨s, t, hst⟩ := hinf
  have hmem : c ∈ l := by
    rw [← hst]
    simp [hcmem]
  rw [hws c hmem] at hcw
  cases hcw

theorem anyInfix_ws {l : List Char} (hws : ∀ c ∈ l, c.isWhitespace = true)
    (pats : List String)
    (hall : pats.all (fun p => p.data.any (fun c => !c.isWhitespace)) = true) :
    pats.any (fun p => decide (p.data <:+: l)) = false := by
  rw [List.any_eq_false]
  intro p hp
  rw [decide_eq_true_eq]
  apply infix_ws_false hws
  have h2 := List.all_eq_true.mp hall p hp
  obtain ⟨c, hc1, hc2⟩ := List.any_eq_true.mp h2
  exact ⟨c, hc1, by simpa using hc2⟩

theorem countPInfix_ws {l : List Char} (hws : ∀ c ∈ l, c.isWhitespace = true)
    (pats : List String)
    (hall : pats.all (fun p => p.data.any (fun c => !c.isWhitespace)) = true) :
    pats.countP (fun p => decide (p.data <:+: l)) = 0 := by
  rw [List.countP_eq_zero]
  intro p hp
  rw [decide_eq_true_eq]
  apply infix_ws_false hws
  have h2 := List.all_eq_true.mp hall p hp
  obtain ⟨c, hc1, hc2⟩ := List.any_eq_true.mp h2
  exact ⟨c, hc1, by simpa using hc2⟩

theorem isPrefixOf_ws_head {p0 c : Char} {pr rest : List Char}
    (hp0 : isWordChar p0 = true) (hc : c.isWhitespace = true) :
    (p0 :: pr).isPrefixOf (c :: rest) = false := by
  have hne : (p0 == c) = false := by
    rw [beq_eq_false_iff_ne]
    intro he
    subst he
    rw [wordChar_ws_false hc] at hp0
    cases hp0
  simp [List.isPrefixOf, hne]

theorem bOccurs_ws {pat : List Char} (hp : isWordChar (pat.headD ' ') = true) :
    ∀ (text : List Char), (∀ c ∈ text, c.isWhitespace = true) →
      ∀ prev, bOccursAux pat prev text = false := by
  intro text
  induction text with
  | nil => intro _ _; rfl
  | cons c rest ih =>
      intro hws prev
      show (bMatchAt pat prev (c :: rest) || bOccursAux pat (some c) rest) = false
      have hmatch : bMatchAt pat prev (c :: rest) = false := by
        cases pat with
        | nil => exact absurd hp (by decide)
        | cons p0 pr =>
            have hp0 : isWordChar p0 = true := hp
            have hpre := @isPrefixOf_ws_head p0 c pr rest hp0 (hws c (by simp))
            simp [bMatchAt, hpre]
      rw [hmatch, ih (fun d hd => hws d (List.mem_cons_of_mem c hd)) (some c)]
      rfl

theorem bAny_ws {l : List Char} (hws : ∀ c ∈ l, c.isWhitespace = true)
    (pats : List String)
    (hall : pats.all (fun p => isWordChar (p.data.headD ' ')) = true) :
    pats.any (fun p => bOccurs p.data l) = false := by
  rw [List.any_eq_false]
  intro p hp
  have h2 := bOccurs_ws (List.all_eq_true.mp hall p hp) l hws none
  simp [bOccurs, h2]

theorem splitWs_nil {l : List Char} (h : ∀ c ∈ l, c.isWhitespace = true) :
    pySplitWs l = [] := by
  show pySplitWsAux l [] = []
  induction l with
  | nil => rfl
  | cons c rest ih =>
      show pySplitWsAux (c :: rest) [] = []
      rw [pySplitWsAux, if_pos (h c (by simp))]
      exact if_pos rfl ▸ ih (fun d hd => h d (List.mem_cons_of_mem c hd))

theorem stockSearch_ws {msg : String} (hws : ∀ c ∈ msg.data, c.isWhitespace = true) :
    stockSearch msg = false := by
  rw [stockSearch, upperL_of_ws hws]
  have key : ∀ (text : List Char), (∀ c ∈ text, c.isWhitespace = true) →
      ∀ prev, stockSearchAux prev text = false := by
    intro text
    induction text with
    | nil => intro _ _; rfl
    | cons c rest ih =>
        intro hws2 prev
        show (stockMatchAt prev (c :: rest) || stockSearchAux (some c) rest) = false
        have hmatch : stockMatchAt prev (c :: rest) = false := by
          have hS := @isPrefixOf_ws_head 'S' c ['T', 'O', 'C', 'K'] rest
            (by decide) (hws2 c (by simp))
          have hP := @isPrefixOf_ws_head 'P' c ['R', 'I', 'C', 'E'] rest
            (by decide) (hws2 c (by simp))
          have hT := @isPrefixOf_ws_head 'T' c ['I', 'C', 'K', 'E', 'R'] rest
            (by decide) (hws2 c (by simp))
          simp only [stockMatchAt, List.any_cons, List.any_nil]
          rw [hS, hP, hT]
          simp
        rw [hmatch, ih (fun d hd => hws2 d (List.mem_cons_of_mem c hd)) (some c)]
        rfl
  exact key msg.data hws none

/-- C7 (counterexample): on the empty message the claim fails for MAXY
1.1: `analyze_user_intent` DOES set a flag (`simple_task`, since the
empty message has at most 3 words and no digit), and
`generate_concise_response` answers from the simple-task branch at
confidence 0.88, not from the default handler at 0.85. -/
theorem claim7_counterexample :
    (analyze_user_intent_11 "").simple_task = true ∧
    generate_concise_response_branch "" none none false = (Branch11.simpleTask, 88/100) ∧
    ((88 : ℚ)/100 ≠ 85/100) :=
  ⟨by decide, by rfl, by norm_num⟩

/-- C7 (amended): on any all-whitespace message (including the empty
one) no SUBSTRING intent flag is set in either analyzer, but MAXY 1.1's
word-count-based `simple_task` flag IS set, so its cascade answers from
the simple-task branch at confidence 0.88; only MAXY 1.3 behaves as
claimed: with no file upload and all lookups empty, its cascade falls
through every arm to the default conversational handler at confidence
0.85. -/
theorem claim7_whitespace_inputs :
    ∀ msg : String, (∀ c ∈ msg.data, c.isWhitespace = true) →
      analyze_user_intent_11 msg =
        ⟨false, false, false, false, false, false, false, false, false, false, false, false,
          true⟩ ∧
      (∀ useSlang : Bool,
        generate_concise_response_branch msg none none useSlang = (Branch11.simpleTask, 88/100)) ∧
      intents13 msg = ⟨false, false, false, false, false, false, false, false, false, false,
        false⟩ ∧
      topics13 msg = ⟨false, false, false, false, false, false⟩ ∧
      is_code_request msg = false ∧
      is_chart_request msg = false ∧
      is_website_request msg = false ∧
      is_research_query msg = false ∧
      stockSearch msg = false ∧
      detect_slang msg = false ∧
      handle_conversational_slang msg = none ∧
      (∀ ext : Ext13, ext.fileData = none → ext.quickCands = [] → ext.techSearch = none →
        maxy13_process_branch msg ext = Except.ok (Branch13.fallbackDefault, 85/100)) := by
  intro msg hws
  have hlow : lowerL msg.data = msg.data := lowerL_of_ws hws
  have hstrip : msgLowerStripped msg = [] := stripped_nil hws
  have hsplit : pySplitWs msg.data = [] := splitWs_nil hws
  have hdig : msg.data.any Char.isDigit = false := by
    rw [List.any_eq_false]
    intro c hc
    rw [ws_not_digit (hws c hc)]
    decide
  have hI : analyze_user_intent_11 msg =
      ⟨false, false, false, false, false, false, false, false, false, false, false, false,
        true⟩ := by
    simp only [analyze_user_intent_11]
    rw [hstrip, hsplit, hdig]
    rfl
  have hslang : handle_conversational_slang msg = none := by
    simp only [handle_conversational_slang]
    rw [hstrip]
    rfl
  have hshould : should_use_wikipedia msg = false := by
    simp only [should_use_wikipedia]
    rw [hlow, anyInfix_ws hws wiki_keywords_11 (by decide)]
    rfl
  have hgen : ∀ useSlang : Bool,
      generate_concise_response_branch msg none none useSlang = (Branch11.simpleTask, 88/100) := by
    intro u
    simp only [generate_concise_response_branch]
    rw [hI, hslang, hshould, hsplit]
    cases u <;> rfl
  have hI13 : intents13 msg =
      ⟨false, false, false, false, false, false, false, false, false, false, false⟩ := by
    simp only [intents13]
    rw [hstrip]
    rfl
  have hT13 : topics13 msg = ⟨false, false, false, false, false, false⟩ := by
    simp only [topics13]
    rw [hstrip]
    rfl
  have hcode : is_code_request msg = false := by
    simp only [is_code_request]
    rw [hlow, anyInfix_ws hws technical_concepts (by decide),
      bAny_ws hws code_indicators (by decide)]
    rfl
  have hchart : is_chart_request msg = false := by
    simp only [is_chart_request]
    rw [hlow]
    exact anyInfix_ws hws chart_indicators (by decide)
  have hweb : is_website_request msg = false := by
    simp only [is_website_request, containsAnyOf]
    rw [hlow, anyInfix_ws hws ["website", "web site", "page"] (by decide)]
    rfl
  have hresearch : is_research_query msg = false := by
    have hr : research_score msg = 0 := by
      simp only [research_score]
      rw [hlow]
      exact countPInfix_ws hws research_indicators (by decide)
    have hc : conversation_score msg = 0 := by
      simp only [conversation_score]
      rw [hlow]
      exact countPInfix_ws hws conversation_indicators (by decide)
    simp only [is_research_query]
    rw [hr, hc]
    rfl
  have hstock : stockSearch msg = false := stockSearch_ws hws
  have hdetect : detect_slang msg = false := by
    rw [detect_slang]
    by_cases hnil : msg.data = []
    · rw [if_pos hnil]
    · rw [if_neg hnil, hlow]
      exact bAny_ws hws slang_triggers (by decide)
  have hdepth : inquiry_depth msg = "surface" := by
    simp only [inquiry_depth]
    rw [hstrip]
    rfl
  have hproc : ∀ ext : Ext13, ext.fileData = none → ext.quickCands = [] →
      ext.techSearch = none →
      maxy13_process_branch msg ext = Except.ok (Branch13.fallbackDefault, 85/100) := by
    intro ext hfile hquick htech
    simp only [maxy13_process_branch, maxy13_file, maxy13_entertainment, maxy13_research,
      maxy13_conv, maxy13_final]
    rw [hI13, hT13, hcode, hchart, hweb, hstock, hresearch, hdepth, hfile, hquick, htech,
      hdetect, hsplit]
    rfl
  exact ⟨hI, hgen, hI13, hT13, hcode, hchart, hweb, hresearch, hstock, hdetect, hslang, hproc⟩

/-- C7 (witness): the amended theorem applied to the one-space message,
with every external collaborator empty. -/
theorem claim7_witness :
    generate_concise_response_branch " " none none false = (Branch11.simpleTask, 88/100) ∧
    maxy13_process_branch " "
        ⟨none, none, none, none, none, none, false, [], [], Except.error "", [], none⟩ =
      Except.ok (Branch13.fallbackDefault, 85/100) :=
  ⟨(claim7_whitespace_inputs " " (by decide)).2.1 false,
   (claim7_whitespace_inputs " " (by decide)).2.2.2.2.2.2.2.2.2.2.2
     ⟨none, none, none, none, none, none, false, [], [], Except.error "", [], none⟩
     rfl rfl rfl⟩
